import Mathlib

/-!
Verification development for the Kamband dungeon-generation core.

The definitions below are a shallow embedding of the C sources
(src/repro_rle.c, src/src/generate.c, src/src/patrol.c, and the cover
engine cover.c).  Pure C functions become Lean functions; the mutable
cave arrays become explicit function-typed layers threaded through the
passes; the RNG becomes an explicit state (a quick seeded mode and a
stable ambient stream, matching the Rand_quick / Rand_value facade).

Numeric feature identifiers, the bounds predicates, and the RNG facade
live in headers that are not part of the repository snapshot; where a
definition could not be read off the sources it is modelled from the
specification and its doc comment says so.  All machine integers are
modelled as Nat / Int with explicit wrap-around (mod 2^32) where the C
code relies on it.
-/

namespace Kamband

set_option maxRecDepth 200000

/-! ### Feature identifiers

Modelled from the spec: the header defining FEAT_* is absent from the
snapshot.  The spec partitions feature identifiers into numerically
ordered bands: granite-or-harder is the test `feat >= FEAT_WALL_EXTRA`,
wall-like is `feat >= FEAT_MAGMA`, and the eight wall kinds are ordered
wall-extra < wall-inner < wall-outer < wall-solid < perm-extra <
perm-inner < perm-outer < perm-solid.  The classic band layout is kept
(walls at 56..63, magma band at 50), and the Kamband-specific passable
features are assigned distinct codes below the wall-like band. -/

def FEAT_NONE : Nat := 0
def FEAT_FLOOR : Nat := 1
def FEAT_GLYPH : Nat := 3
def FEAT_OPEN : Nat := 4
def FEAT_BROKEN : Nat := 5
def FEAT_LESS : Nat := 6
def FEAT_MORE : Nat := 7
def FEAT_FOG : Nat := 10
def FEAT_FOG_DENSE : Nat := 11
def FEAT_SMOKE : Nat := 12
def FEAT_CHAOS_FOG : Nat := 13
def FEAT_TREES : Nat := 14
def FEAT_FALLEN_TREE : Nat := 15
def FEAT_TALL_GRASS : Nat := 16
def FEAT_REEDS : Nat := 17
def FEAT_SHRUB : Nat := 18
def FEAT_BOULDER : Nat := 19
def FEAT_CRATE : Nat := 20
def FEAT_BARREL : Nat := 21
def FEAT_STONE_PILLAR : Nat := 22
def FEAT_SHAL_WATER : Nat := 23
def FEAT_UNSEEN : Nat := 24
def FEAT_SHAFT : Nat := 25
def FEAT_DREAM_EXIT : Nat := 26
def FEAT_GLOWING_TILE : Nat := 27
def FEAT_FOUNTAIN : Nat := 28
def FEAT_CARTOGRAPHER : Nat := 29
def FEAT_RUBBLE : Nat := 49
def FEAT_MAGMA : Nat := 50
def FEAT_QUARTZ : Nat := 51
def FEAT_WALL_EXTRA : Nat := 56
def FEAT_WALL_INNER : Nat := 57
def FEAT_WALL_OUTER : Nat := 58
def FEAT_WALL_SOLID : Nat := 59
def FEAT_PERM_EXTRA : Nat := 60
def FEAT_PERM_INNER : Nat := 61
def FEAT_PERM_OUTER : Nat := 62
def FEAT_PERM_SOLID : Nat := 63

/-- Modelled from the spec: cover tiers form the totally ordered set
NONE < LIGHT < MEDIUM < HEAVY < TOTAL (the COVER_* defines are in a
missing header). -/
def COVER_NONE : Nat := 0
def COVER_LIGHT : Nat := 1
def COVER_MEDIUM : Nat := 2
def COVER_HEAVY : Nat := 3
def COVER_TOTAL : Nat := 4

/-- Modelled from the spec: dungeon grid height, default 66. -/
def DUNGEON_HGT : Nat := 66
/-- Modelled from the spec: dungeon grid width, default 198. -/
def DUNGEON_WID : Nat := 198
/-- Modelled from the spec: the terminal depth bound (MAX_DEPTH define
is in a missing header); only MAX_DEPTH being well above the shallow
depths used here matters for the claims. -/
def MAX_DEPTH : Nat := 128

/-- One byte-valued grid layer (cave_feat, cave_info, ...), addressed
by signed coordinates so that C index arithmetic embeds directly. -/
def Layer : Type := Int → Int → Nat

/-- Point update of a layer, the embedding of `layer[y][x] = v`. -/
def layerSet (g : Layer) (y x : Int) (v : Nat) : Layer :=
  fun b a => if b = y ∧ a = x then v else g b a

/-- Modelled from the spec: `in_bounds` is the permissive rectangle
test (the spec reserves `in_bounds_fully` for the variant that
excludes the outer ring). -/
def in_bounds (y x : Int) : Bool :=
  decide (0 ≤ y ∧ y < (DUNGEON_HGT : Int) ∧ 0 ≤ x ∧ x < (DUNGEON_WID : Int))

/-- Modelled from the spec: `in_bounds_fully` excludes the outer ring. -/
def in_bounds_fully (y x : Int) : Bool :=
  decide (0 < y ∧ y < (DUNGEON_HGT : Int) - 1 ∧ 0 < x ∧ x < (DUNGEON_WID : Int) - 1)

/-! ### The RLE dungeon writer (src/repro_rle.c) -/

/-- `wr_byte` from repro_rle.c: append to the 1024-byte buffer,
dropping the byte on overflow. -/
def wr_byte (buf : List Nat) (v : Nat) : List Nat :=
  if buf.length < 1024 then buf ++ [v] else buf

/-- The per-cell body of the double loop in `wr_dungeon_sim`:
state is (count, prev_char, buffer). -/
def wrStep (s : Nat × Nat × List Nat) (tmp8u : Nat) : Nat × Nat × List Nat :=
  let count := s.1
  let prev_char := s.2.1
  let buf := s.2.2
  if tmp8u ≠ prev_char ∨ count = 255 then
    let buf2 := if count ≠ 0 then wr_byte (wr_byte buf count) prev_char else buf
    (1, tmp8u, buf2)
  else
    (count + 1, prev_char, buf)

/-- `wr_dungeon_sim` from repro_rle.c over a 10x10 grid of byte cells,
scanned row-major; `fix` is the terminal-flush flag.  Returns the
written buffer. -/
def wr_dungeon_sim (cave : Nat → Nat → Nat) (fix : Bool) : List Nat :=
  let cells := ((List.range 10).map (fun y => (List.range 10).map (fun x => cave y x))).flatten
  let s := cells.foldl wrStep (0, 0, [])
  if fix then
    (if s.1 ≠ 0 then wr_byte (wr_byte s.2.2 s.1) s.2.1 else s.2.2)
  else s.2.2

/-! ### Wilderness corner hashing (src/src/generate.c, terrain_gen)

The C macros operate on 32-bit ints; coordinates and the seed are
modelled as 32-bit patterns (Nat below 2^32) with wrap-around
arithmetic, subtraction in two-complement form. -/

/-- 32-bit wrap. -/
def w32 (n : Nat) : Nat := n % 2 ^ 32

/-- 32-bit addition. -/
def addw (a b : Nat) : Nat := w32 (a + b)

/-- 32-bit subtraction (two-complement). -/
def subw (a b : Nat) : Nat := w32 (a + (2 ^ 32 - w32 b))

/-- `HASH_CORNERS(X, Y) = ((X - Y) ^ ((X + seed_wild) & Y))` from
terrain_gen, on 32-bit patterns. -/
def HASH_CORNERS (seed_wild x y : Nat) : Nat :=
  w32 (Nat.xor (subw x y) (Nat.land (addw x seed_wild) (w32 y)))

/-- `HASH_LEVEL(X, Y) = ((Y - X) ^ (Y & (X + seed_wild)))` from
terrain_gen, on 32-bit patterns. -/
def HASH_LEVEL (seed_wild x y : Nat) : Nat :=
  w32 (Nat.xor (subw y x) (Nat.land (w32 y) (addw x seed_wild)))

/-- terrain_gen seeds `cave_feat[1][1]` (the top-left interior corner
of the wilderness tile at (wild_x, wild_y)) by setting Rand_value to
`HASH_CORNERS(wild_x, wild_y)` and drawing `rand_int(table_size)`;
`draw` abstracts the quick-mode RNG as an arbitrary function of the
seed value, so the statement covers every RNG implementation. -/
def cornerTopLeft (draw : Nat → Nat) (seed_wild wx wy : Nat) : Nat :=
  draw (HASH_CORNERS seed_wild wx wy)

/-- terrain_gen seeds `cave_feat[1][DUNGEON_WID - 2]` (the top-right
interior corner) from `HASH_CORNERS(wild_x + 1, wild_y)`. -/
def cornerTopRight (draw : Nat → Nat) (seed_wild wx wy : Nat) : Nat :=
  draw (HASH_CORNERS seed_wild (addw wx 1) wy)

/-! ### Cover engine state (cover.c) -/

/-- The `cover_data` record held in `cave_cover[y][x]`. -/
structure CoverData where
  durability : Int
  max_durability : Int
  cover_type : Nat
  terrain_feat : Nat
  deriving Repr, DecidableEq

/-- The state read by the cover engine: the feature layer and the
per-cell optional destructible-cover records. -/
structure CoverState where
  cave_feat : Layer
  cave_cover : Int → Int → Option CoverData

/-- Write the feature layer of a cover state. -/
def csSetFeat (cs : CoverState) (y x : Int) (v : Nat) : CoverState :=
  { cs with cave_feat := layerSet cs.cave_feat y x v }

/-- Write the cover-record layer of a cover state. -/
def csSetCover (cs : CoverState) (y x : Int) (v : Option CoverData) : CoverState :=
  { cs with cave_cover := fun b a => if b = y ∧ a = x then v else cs.cave_cover b a }

/-- The feature-to-tier switch at the bottom of `get_cover_at`. -/
def featCoverTier (feat : Nat) : Nat :=
  if feat = FEAT_WALL_INNER ∨ feat = FEAT_WALL_OUTER ∨ feat = FEAT_WALL_SOLID ∨
     feat = FEAT_PERM_INNER ∨ feat = FEAT_PERM_OUTER ∨ feat = FEAT_PERM_SOLID ∨
     feat = FEAT_STONE_PILLAR then COVER_HEAVY
  else if feat = FEAT_TREES ∨ feat = FEAT_BOULDER ∨ feat = FEAT_RUBBLE then COVER_MEDIUM
  else if feat = FEAT_FALLEN_TREE ∨ feat = FEAT_CRATE ∨ feat = FEAT_TALL_GRASS ∨
          feat = FEAT_REEDS ∨ feat = FEAT_SHRUB then COVER_LIGHT
  else if feat = FEAT_FOG ∨ feat = FEAT_FOG_DENSE ∨ feat = FEAT_SMOKE ∨
          feat = FEAT_CHAOS_FOG then COVER_LIGHT
  else if feat = FEAT_BARREL then COVER_LIGHT
  else COVER_NONE

/-- `get_cover_at` from cover.c: out-of-bounds gives COVER_NONE; a
destructible-cover record wins while its durability is positive and
yields COVER_NONE once destroyed; otherwise the feature mapping. -/
def get_cover_at (cs : CoverState) (y x : Int) : Nat :=
  if ¬ in_bounds y x then COVER_NONE
  else
    match cs.cave_cover y x with
    | some d => if d.durability > 0 then d.cover_type else COVER_NONE
    | none => featCoverTier (cs.cave_feat y x)

/-! ### The RNG facade

Modelled from the spec: the z-rand implementation is not in the
snapshot.  The facade has two modes: `quick` (Rand_quick = TRUE)
derives a deterministic stream from the seed value Rand_value by a
linear congruential step, and the stable mode continues the long-lived
ambient stream, modelled as an oracle sequence with a cursor. -/

structure RandState where
  quick : Bool
  value : Nat
  seq : Nat → Nat
  idx : Nat

/-- One step of the quick-mode linear congruential generator
(modelled from the spec; the concrete multiplier is the classic one,
only determinism in `value` matters for the claims). -/
def lcgStep (v : Nat) : Nat := (v * 1103515245 + 12345) % 2 ^ 32

/-- `rand_int(n)`: a uniform draw in [0, n).  Quick mode advances
Rand_value; stable mode consumes the ambient stream. -/
def rand_int (r : RandState) (n : Nat) : Nat × RandState :=
  if r.quick then
    let v := lcgStep r.value
    (v % n, { r with value := v })
  else
    (r.seq r.idx % n, { r with idx := r.idx + 1 })

/-- `rand_range(a, b)`: a uniform draw in [a, b] (modelled from the
spec by reduction to `rand_int`, as in the standard facade). -/
def rand_range (r : RandState) (a b : Nat) : Nat × RandState :=
  let p := rand_int r (1 + b - a)
  (a + p.1, p.2)

/-- `rand_spread(a, d)`: a uniform draw in [a - d, a + d] (modelled
from the spec by reduction to `rand_int`). -/
def rand_spread (r : RandState) (a : Int) (d : Nat) : Int × RandState :=
  let p := rand_int r (1 + 2 * d)
  (a + (p.1 : Int) - (d : Int), p.2)

/-! ### Cave state and the stair-allocation pass (src/src/generate.c) -/

/-- The grid layers touched by the generation passes under study. -/
structure CaveState where
  cave_feat : Layer
  cave_o_idx : Layer
  cave_m_idx : Layer
  cave_info : Layer

/-- Write the feature layer. -/
def stSetFeat (st : CaveState) (y x : Int) (v : Nat) : CaveState :=
  { st with cave_feat := layerSet st.cave_feat y x v }

/-- Modelled from the spec: `is_naked` is floor with no object, no
monster and no glyph (the glyph is itself a feature, so the floor test
covers it); the cave_naked_bold macro is in a missing header. -/
def cave_naked_bold (st : CaveState) (y x : Int) : Bool :=
  st.cave_feat y x = FEAT_FLOOR && st.cave_o_idx y x = 0 && st.cave_m_idx y x = 0

/-- The CAVE_ROOM flag bit (modelled from the spec; only its identity
matters). -/
def CAVE_ROOM : Nat := 8

/-- Test a cave_info flag bit. -/
def infoHasFlag (st : CaveState) (y x : Int) (flag : Nat) : Bool :=
  Nat.land (st.cave_info y x) flag ≠ 0

/-- `next_to_walls` from generate.c: count the four cardinal
neighbours whose feature is granite or harder. -/
def next_to_walls (st : CaveState) (y x : Int) : Nat :=
  (if st.cave_feat (y + 1) x ≥ FEAT_WALL_EXTRA then 1 else 0) +
  (if st.cave_feat (y - 1) x ≥ FEAT_WALL_EXTRA then 1 else 0) +
  (if st.cave_feat y (x + 1) ≥ FEAT_WALL_EXTRA then 1 else 0) +
  (if st.cave_feat y (x - 1) ≥ FEAT_WALL_EXTRA then 1 else 0)

/-- The `p_ptr->inside_special` discriminant (the SPECIAL_* codes are
in a missing header; only case identity matters). -/
inductive Special where
  | norm | arena | quest | store | wild | dream
  deriving Repr, DecidableEq

/-- The ambient player fields read by the stair allocator. -/
structure GenEnv where
  depth : Nat
  inside_special : Special
  deriving Repr, DecidableEq

/-- The feature actually written by one stair placement: the town
forces down-stairs (a shaft in the wilderness), quest levels and the
terminal depth force up-stairs, and otherwise the requested feature is
used (`alloc_stairs`, generate.c lines 656..680). -/
def stairFeatureFor (env : GenEnv) (feat : Nat) : Nat :=
  if env.depth = 0 then
    (if env.inside_special = Special.wild then FEAT_SHAFT else FEAT_MORE)
  else if env.inside_special = Special.quest ∨ env.depth ≥ MAX_DEPTH - 1 then
    FEAT_LESS
  else feat

/-- The inner `for (j = 0; !flag && j < 3000; j++)` try loop of
`alloc_stairs`: pick a random grid, require naked floor, optionally
require CAVE_ROOM, require `walls` adjacent wall cells, and on success
write the stair feature.  Returns the updated state on success and
always returns the advanced RNG. -/
def stairTryLoop (env : GenEnv) (feat walls : Nat) (force_room : Bool)
    (st : CaveState) (r : RandState) : Nat → Option CaveState × RandState
  | 0 => (none, r)
  | j + 1 =>
    let py := rand_int r DUNGEON_HGT
    let px := rand_int py.2 DUNGEON_WID
    let y : Int := py.1
    let x : Int := px.1
    if ¬ cave_naked_bold st y x then
      stairTryLoop env feat walls force_room st px.2 j
    else if force_room ∧ ¬ infoHasFlag st y x CAVE_ROOM then
      stairTryLoop env feat walls force_room st px.2 j
    else if next_to_walls st y x < walls then
      stairTryLoop env feat walls force_room st px.2 j
    else
      (some (stSetFeat st y x (stairFeatureFor env feat)), px.2)

/-- The `for (flag = FALSE; !flag;)` loop around the try loop: after
every round of 3000 tries the `walls` requirement is decreased when
positive (the source decrements `walls` also after the successful
round, and `walls` persists across placements).  The unbounded C loop
is given explicit fuel; `none` means the fuel ran out before a
placement succeeded. -/
def stairPlaceLoop (env : GenEnv) (feat : Nat) (force_room : Bool)
    (st : CaveState) (r : RandState) (walls : Nat) :
    Nat → Option (CaveState × RandState × Nat)
  | 0 => none
  | fuel + 1 =>
    match stairTryLoop env feat walls force_room st r 3000 with
    | (some st2, r2) => some (st2, r2, walls - 1)
    | (none, r2) => stairPlaceLoop env feat force_room st r2 (walls - 1) fuel

/-- The `for (i = 0; i < num; i++)` loop of `alloc_stairs`. -/
def allocStairsLoop (env : GenEnv) (feat : Nat) (force_room : Bool) (fuel : Nat) :
    Nat → CaveState → RandState → Nat → Option (CaveState × RandState × Nat)
  | 0, st, r, walls => some (st, r, walls)
  | num + 1, st, r, walls =>
    match stairPlaceLoop env feat force_room st r walls fuel with
    | none => none
    | some (st2, r2, walls2) => allocStairsLoop env feat force_room fuel num st2 r2 walls2

/-- `alloc_stairs(feat, num, walls, force_room)` from generate.c,
including the dream-level special case at its head. -/
def alloc_stairs (env : GenEnv) (feat num walls : Nat) (force_room : Bool)
    (fuel : Nat) (st : CaveState) (r : RandState) :
    Option (CaveState × RandState × Nat) :=
  if env.inside_special = Special.dream ∧ feat = FEAT_LESS then
    some (st, r, walls)
  else
    let feat2 := if env.inside_special = Special.dream ∧ feat = FEAT_MORE then
        FEAT_DREAM_EXIT else feat
    let num2 := if env.inside_special = Special.dream ∧ feat = FEAT_MORE ∧ num > 1 then
        1 else num
    allocStairsLoop env feat2 force_room fuel num2 st r walls

/-- The stair section of `cave_gen` (generate.c lines 5944..5948):
100..120 down stairs then 40..60 up stairs, requiring 3 adjacent
walls, with force_room only on fog backgrounds. -/
def caveGenStairsPass (env : GenEnv) (force_room : Bool) (fuel : Nat)
    (st : CaveState) (r : RandState) : Option (CaveState × RandState) :=
  let n1 := rand_range r 100 120
  match alloc_stairs env FEAT_MORE n1.1 3 force_room fuel st n1.2 with
  | none => none
  | some (st2, r2, _) =>
    let n2 := rand_range r2 40 60
    match alloc_stairs env FEAT_LESS n2.1 3 force_room fuel st2 n2.2 with
    | none => none
    | some (st3, r3, _) => some (st3, r3)

/-- The number of up-stair cells on the grid. -/
def countLess (st : CaveState) : Nat :=
  ((Finset.Icc (0 : Int) ((DUNGEON_HGT : Int) - 1)) ×ˢ
    (Finset.Icc (0 : Int) ((DUNGEON_WID : Int) - 1))).filter
      (fun p => st.cave_feat p.1 p.2 = FEAT_LESS) |>.card

/-! ### Boundary wall passes (cave_gen lines 5775..5809,
terrain_gen lines 4264..4286) -/

/-- The row loop `for (x = 0; x < DUNGEON_WID; x++) cave_feat[y][x] = v`. -/
def paintRowLoop (g : Layer) (y : Int) (v : Nat) (n : Nat) : Layer :=
  (List.range n).foldl (fun acc x => layerSet acc y (Int.ofNat x) v) g

/-- The column loop `for (y = 0; y < DUNGEON_HGT; y++) cave_feat[y][x] = v`. -/
def paintColLoop (g : Layer) (x : Int) (v : Nat) (n : Nat) : Layer :=
  (List.range n).foldl (fun acc y => layerSet acc (Int.ofNat y) x v) g

/-- The four special-boundary-walls loops shared (up to the written
feature) by cave_gen and terrain_gen: top row, bottom row, left
column, right column. -/
def paintBoundary (v : Nat) (g : Layer) : Layer :=
  let g1 := paintRowLoop g 0 v DUNGEON_WID
  let g2 := paintRowLoop g1 ((DUNGEON_HGT : Int) - 1) v DUNGEON_WID
  let g3 := paintColLoop g2 0 v DUNGEON_HGT
  paintColLoop g3 ((DUNGEON_WID : Int) - 1) v DUNGEON_HGT

/-- The boundary pass of `cave_gen`: the outer ring becomes
permanent-solid wall. -/
def cave_gen_boundary (st : CaveState) : CaveState :=
  { st with cave_feat := paintBoundary FEAT_PERM_SOLID st.cave_feat }

/-- The boundary pass of `terrain_gen`: the outer ring becomes
FEAT_UNSEEN. -/
def terrain_gen_boundary (g : Layer) : Layer :=
  paintBoundary FEAT_UNSEEN g

/-- Membership of a coordinate in the outer ring of the grid. -/
def onOuterRing (y x : Int) : Prop :=
  (in_bounds y x = true) ∧
    (y = 0 ∨ y = (DUNGEON_HGT : Int) - 1 ∨ x = 0 ∨ x = (DUNGEON_WID : Int) - 1)

/-! ### Directional cover, blocking, and attack resolution (cover.c) -/

/-- Modelled from the spec: the eight direction tables (ddy_ddd /
ddx_ddd live in a missing table file); the order matches the
direction comments in `is_attack_blocked_by_cover`:
0=N, 1=NE, 2=E, 3=SE, 4=S, 5=SW, 6=W, 7=NW. -/
def ddy_ddd (d : Nat) : Int := [-1, -1, 0, 1, 1, 1, 0, -1].getD d 0

/-- Horizontal components of the eight directions (see `ddy_ddd`). -/
def ddx_ddd (d : Nat) : Int := [0, 1, 1, 1, 0, -1, -1, -1].getD d 0

/-- C signed division truncating toward zero, for a positive divisor. -/
def cdiv (a : Int) (n : Nat) : Int :=
  if 0 ≤ a then ((a.toNat / n : Nat) : Int) else -(((-a).toNat / n : Nat) : Int)

/-- Modelled from the spec: the distance helper is in a missing
utility file; the spec only uses it as the line length `dist` of the
trace `i ∈ [1, dist)`.  The classic approximation (longer delta plus
half the shorter) is used; the claims are settled on straight lines
where it equals the exact length. -/
def distance (y1 x1 y2 x2 : Int) : Nat :=
  let dy := (y1 - y2).natAbs
  let dx := (x1 - x2).natAbs
  if dy > dx then dy + dx / 2 else dx + dy / 2

/-- The scan loop of `get_cover_vs_direction` (cover.c lines
136..160): steps `i` over the traced line; fog, dense fog and smoke
cells are skipped; other cells raise `best`; reaching COVER_TOTAL
returns immediately (first component true). -/
def coverScanLoop (cs : CoverState) (ay ax dy dx : Int) (dist : Nat) :
    Nat → Nat → Nat → Bool × Nat
  | 0, _, best => (false, best)
  | rem + 1, i, best =>
    let y := ay + cdiv (dy * (i : Int)) dist
    let x := ax + cdiv (dx * (i : Int)) dist
    if ¬ in_bounds y x then coverScanLoop cs ay ax dy dx dist rem (i + 1) best
    else
      let cover := get_cover_at cs y x
      if cs.cave_feat y x = FEAT_FOG ∨ cs.cave_feat y x = FEAT_FOG_DENSE ∨
         cs.cave_feat y x = FEAT_SMOKE then
        coverScanLoop cs ay ax dy dx dist rem (i + 1) best
      else
        let best2 := if cover > best then cover else best
        if best2 ≥ COVER_TOTAL then (true, COVER_TOTAL)
        else coverScanLoop cs ay ax dy dx dist rem (i + 1) best2

/-- `get_cover_vs_direction(ty, tx, ay, ax)` from cover.c: the best
cover on the traced line, plus LIGHT/MEDIUM self-cover from the
target cell. -/
def get_cover_vs_direction (cs : CoverState) (ty tx ay ax : Int) : Nat :=
  let dy := ty - ay
  let dx := tx - ax
  let dist := distance ay ax ty tx
  match coverScanLoop cs ay ax dy dx dist (dist - 1) 1 COVER_NONE with
  | (true, _) => COVER_TOTAL
  | (false, best) =>
    let target_cover := get_cover_at cs ty tx
    if target_cover > best ∧ target_cover ≤ COVER_MEDIUM then target_cover else best

/-- `get_directional_cover` from cover.c: an 8-bit map of the
directions whose adjacent cell holds a solid feature. -/
def get_directional_cover (cs : CoverState) (y x : Int) : Nat :=
  (List.range 8).foldl (fun acc dir =>
    let ny := y + ddy_ddd dir
    let nx := x + ddx_ddd dir
    if ¬ in_bounds ny nx then acc
    else
      let feat := cs.cave_feat ny nx
      if feat ≥ FEAT_WALL_EXTRA ∨ feat = FEAT_TREES ∨ feat = FEAT_BOULDER ∨
         feat = FEAT_STONE_PILLAR then
        Nat.lor acc (Nat.shiftLeft 1 dir)
      else acc) 0

/-- The target-to-attacker octant switch of
`is_attack_blocked_by_cover`; `none` is the same-grid case. -/
def attackDirIndex (ty tx ay ax : Int) : Option Nat :=
  let dy := ay - ty
  let dx := ax - tx
  if dy < 0 ∧ dx < 0 then some 7
  else if dy < 0 ∧ dx = 0 then some 0
  else if dy < 0 ∧ dx > 0 then some 1
  else if dy = 0 ∧ dx > 0 then some 2
  else if dy > 0 ∧ dx > 0 then some 3
  else if dy > 0 ∧ dx = 0 then some 4
  else if dy > 0 ∧ dx < 0 then some 5
  else if dy = 0 ∧ dx < 0 then some 6
  else none

/-- `is_attack_blocked_by_cover(ty, tx, ay, ax)` from cover.c:
blocked when the adjacent cell in the attacker octant is solid and
holds HEAVY-or-better cover. -/
def is_attack_blocked_by_cover (cs : CoverState) (ty tx ay ax : Int) : Bool :=
  match attackDirIndex ty tx ay ax with
  | none => false
  | some dir =>
    if Nat.land (get_directional_cover cs ty tx) (Nat.shiftLeft 1 dir) ≠ 0 then
      decide (get_cover_at cs (ty + ddy_ddd dir) (tx + ddx_ddd dir) ≥ COVER_HEAVY)
    else false

/-- Modelled from the spec: the COVER_DURABILITY_* defines are in a
missing header; only positivity matters for the claims. -/
def COVER_DURABILITY_TREE : Nat := 60
/-- Modelled from the spec (see `COVER_DURABILITY_TREE`). -/
def COVER_DURABILITY_BOULDER : Nat := 40
/-- Modelled from the spec (see `COVER_DURABILITY_TREE`). -/
def COVER_DURABILITY_WALL : Nat := 100

/-- `create_cover_at` from cover.c. -/
def create_cover_at (cs : CoverState) (y x : Int) (cover_type : Nat)
    (durability : Int) (feat : Nat) : CoverState :=
  if ¬ in_bounds y x then cs
  else
    let cs2 := csSetCover cs y x (some
      { durability := durability, max_durability := durability,
        cover_type := cover_type, terrain_feat := feat })
    csSetFeat cs2 y x feat

/-- `destroy_cover` from cover.c: release the record and revert the
cell to bare floor. -/
def destroy_cover (cs : CoverState) (y x : Int) : CoverState :=
  if ¬ in_bounds y x then cs
  else csSetFeat (csSetCover cs y x none) y x FEAT_FLOOR

/-- The destructible-record branch of `damage_cover`: decrement
durability and destroy at zero or below (the nearly-destroyed message
has no state effect). -/
def damageCoverRecord (cs : CoverState) (y x : Int) (d : CoverData)
    (damage : Int) : CoverState :=
  let d2 := { d with durability := d.durability - damage }
  let cs2 := csSetCover cs y x (some d2)
  if d2.durability ≤ 0 then destroy_cover cs2 y x else cs2

/-- `damage_cover` from cover.c.  The barrel branch fires an
explosion through the spell engine (outside the modelled layers) and
resets the cell to floor; the tree branch consumes a `rand_int(100)`
roll; the crate branch lazily creates a 20-durability record and then
recurses, which lands in the record branch (`damageCoverRecord`). -/
def damage_cover (cs : CoverState) (y x : Int) (damage : Int)
    (r : RandState) : CoverState × RandState :=
  if ¬ in_bounds y x then (cs, r)
  else
    let feat := cs.cave_feat y x
    if feat = FEAT_BARREL then (csSetFeat cs y x FEAT_FLOOR, r)
    else
      match cs.cave_cover y x with
      | some d => (damageCoverRecord cs y x d damage, r)
      | none =>
        if feat = FEAT_TREES ∧ damage > 20 then
          let roll := rand_int r 100
          if (roll.1 : Int) < damage then
            let cs2 := csSetFeat cs y x FEAT_FALLEN_TREE
            (create_cover_at cs2 y x COVER_LIGHT ((COVER_DURABILITY_TREE : Int) / 2)
              FEAT_FALLEN_TREE, roll.2)
          else (cs, roll.2)
        else if feat = FEAT_CRATE then
          let d : CoverData :=
            { durability := 20, max_durability := 20,
              cover_type := COVER_LIGHT, terrain_feat := FEAT_CRATE }
          let cs2 := csSetCover cs y x (some d)
          (damageCoverRecord cs2 y x d damage, r)
        else (cs, r)

/-- Modelled from the spec: the COVER_ABSORB_* tunables are in a
missing header; the spec requires them monotonically increasing and
at most 100. -/
def COVER_ABSORB_LIGHT : Nat := 10
/-- Modelled from the spec (see `COVER_ABSORB_LIGHT`). -/
def COVER_ABSORB_MEDIUM : Nat := 25
/-- Modelled from the spec (see `COVER_ABSORB_LIGHT`). -/
def COVER_ABSORB_HEAVY : Nat := 50
/-- Modelled from the spec (see `COVER_ABSORB_LIGHT`). -/
def COVER_ABSORB_TOTAL : Nat := 90

/-- The cover-search loop of `attack_through_cover`
(`for (i = 1; i <= dist; i++)`): damage the first cell on the line
whose cover tier is at least `cover`; `none` when the loop runs out
without finding one. -/
def coverStrikeLoop (cs : CoverState) (r : RandState) (ay ax dy dx : Int)
    (dist cover : Nat) (dmg : Int) : Nat → Nat → Option (CoverState × RandState)
  | 0, _ => none
  | rem + 1, i =>
    let cy := ay + cdiv (dy * (i : Int)) dist
    let cx := ax + cdiv (dx * (i : Int)) dist
    if get_cover_at cs cy cx ≥ cover then some (damage_cover cs cy cx dmg r)
    else coverStrikeLoop cs r ay ax dy dx dist cover dmg rem (i + 1)

/-- The outcome of `attack_through_cover`: the returned hit flag, the
written-back `*damage` and `*cover_damage_out`, and the updated
state. -/
structure AttackResult where
  hit : Bool
  damage : Int
  cover_damage_out : Int
  cs : CoverState
  r : RandState

/-- `attack_through_cover(ay, ax, ty, tx, damage)` from cover.c. -/
def attack_through_cover (cs : CoverState) (ay ax ty tx : Int)
    (damage : Int) (r : RandState) : AttackResult :=
  let cover := get_cover_vs_direction cs ty tx ay ax
  let original_damage := damage
  if cover = COVER_NONE then
    { hit := true, damage := damage, cover_damage_out := 0, cs := cs, r := r }
  else if is_attack_blocked_by_cover cs ty tx ay ax then
    { hit := false, damage := 0, cover_damage_out := 0, cs := cs, r := r }
  else
    let absorb_percent :=
      if cover = COVER_LIGHT then COVER_ABSORB_LIGHT
      else if cover = COVER_MEDIUM then COVER_ABSORB_MEDIUM
      else if cover = COVER_HEAVY then COVER_ABSORB_HEAVY
      else if cover = COVER_TOTAL then COVER_ABSORB_TOTAL
      else 0
    let miss_chance :=
      if cover = COVER_LIGHT then 25
      else if cover = COVER_MEDIUM then 40
      else if cover = COVER_HEAVY then 60
      else if cover = COVER_TOTAL then 100
      else 0
    let roll := rand_int r 100
    let dy := ty - ay
    let dx := tx - ax
    let dist := distance ay ax ty tx
    if roll.1 < miss_chance then
      let cover_damage := original_damage
      match coverStrikeLoop cs roll.2 ay ax dy dx dist cover cover_damage dist 1 with
      | some (cs2, r2) =>
        { hit := false, damage := 0, cover_damage_out := cover_damage, cs := cs2, r := r2 }
      | none =>
        if get_cover_at cs ty tx ≥ cover then
          let p := damage_cover cs ty tx cover_damage roll.2
          { hit := false, damage := 0, cover_damage_out := cover_damage,
            cs := p.1, r := p.2 }
        else
          { hit := false, damage := 0, cover_damage_out := 0, cs := cs, r := roll.2 }
    else
      let cover_damage := cdiv (original_damage * (absorb_percent : Int)) 100
      let damage2 := original_damage - cover_damage
      if cover_damage > 0 then
        match coverStrikeLoop cs roll.2 ay ax dy dx dist cover cover_damage dist 1 with
        | some (cs2, r2) =>
          { hit := decide (damage2 > 0), damage := damage2,
            cover_damage_out := cover_damage, cs := cs2, r := r2 }
        | none =>
          if get_cover_at cs ty tx ≥ cover then
            let p := damage_cover cs ty tx cover_damage roll.2
            { hit := decide (damage2 > 0), damage := damage2,
              cover_damage_out := cover_damage, cs := p.1, r := p.2 }
          else
            { hit := decide (damage2 > 0), damage := damage2,
              cover_damage_out := cover_damage, cs := cs, r := roll.2 }
      else
        { hit := decide (damage2 > 0), damage := damage2,
          cover_damage_out := cover_damage, cs := cs, r := roll.2 }

/-! ### Tunneler piercing logic (src/src/generate.c)

The two corridor walkers are embedded at the granularity of one loop
body each: the direction choice and the processing of the entered
cell.  The iteration caps (2000 / 20000), the later conversion of the
collected `tunn[]` / `wall[]` grids to floor, and the fallback from
the winding walker to the straight walker are control plumbing around
these bodies and are not needed by the claims. -/

/-- Modelled from the spec: array capacities of the ephemeral
dun-state (doors up to 1000, walls up to 2000, tunnel up to 9000). -/
def DOOR_MAX : Nat := 1000
/-- Modelled from the spec (see `DOOR_MAX`). -/
def WALL_MAX : Nat := 2000
/-- Modelled from the spec (see `DOOR_MAX`). -/
def TUNN_MAX : Nat := 9000

/-- Spec: 30% chance to re-correct the direction each step. -/
def DUN_TUN_CHG : Nat := 30
/-- Spec: 10% chance to randomize the direction within a bend. -/
def DUN_TUN_RND : Nat := 10
/-- Modelled from the spec: early-termination tunable (value not
given by the spec; only `rand_int(100) >= DUN_TUN_CON` gating the
break matters). -/
def DUN_TUN_CON : Nat := 15

/-- The wall-piercing and door-queue books of the ephemeral
dun-state. -/
structure DunState where
  wall : List (Int × Int)
  tunn : List (Int × Int)
  door : List (Int × Int)
  deriving Repr, DecidableEq

/-- Append to `wall[]` honouring WALL_MAX. -/
def dunPushWall (d : DunState) (p : Int × Int) : DunState :=
  if d.wall.length < WALL_MAX then { d with wall := d.wall ++ [p] } else d

/-- Append to `tunn[]` honouring TUNN_MAX. -/
def dunPushTunn (d : DunState) (p : Int × Int) : DunState :=
  if d.tunn.length < TUNN_MAX then { d with tunn := d.tunn ++ [p] } else d

/-- Append to `door[]` honouring DOOR_MAX. -/
def dunPushDoor (d : DunState) (p : Int × Int) : DunState :=
  if d.door.length < DOOR_MAX then { d with door := d.door ++ [p] } else d

/-- `correct_dir` from generate.c: the componentwise sign of the
target offset, with a coin breaking diagonals. -/
def correct_dir (r : RandState) (y1 x1 y2 x2 : Int) : (Int × Int) × RandState :=
  let rdir : Int := if y1 = y2 then 0 else if y1 < y2 then 1 else -1
  let cdir : Int := if x1 = x2 then 0 else if x1 < x2 then 1 else -1
  if rdir ≠ 0 ∧ cdir ≠ 0 then
    let p := rand_int r 100
    if p.1 < 50 then ((0, cdir), p.2) else ((rdir, 0), p.2)
  else ((rdir, cdir), r)

/-- `rand_dir` from generate.c: a draw from the first four entries of
the direction tables. -/
def rand_dir (r : RandState) : (Int × Int) × RandState :=
  let p := rand_int r 4
  ((ddy_ddd p.1, ddx_ddd p.1), p.2)

/-- The `Forbid re-entry near this piercing` double loop of
`build_tunnel` (lines 3142..3153): every WALL_OUTER cell in the 3x3
neighbourhood of the piercing becomes WALL_SOLID. -/
def convertOuter3x3 (g : Layer) (cy cx : Int) : Layer :=
  ([(-1, -1), (-1, 0), (-1, 1), (0, -1), (0, 0), (0, 1), (1, -1), (1, 0), (1, 1)] :
      List (Int × Int)).foldl
    (fun acc o =>
      if acc (cy + o.1) (cx + o.2) = FEAT_WALL_OUTER then
        layerSet acc (cy + o.1) (cx + o.2) FEAT_WALL_SOLID
      else acc) g

/-- The output of one cell-processing step of a tunnel walker. -/
structure TunnelStepOut where
  st : CaveState
  dun : DunState
  row1 : Int
  col1 : Int
  door_flag : Bool
  r : RandState
  brk : Bool

/-- The cell-processing body of `build_tunnel` (generate.c lines
3098..3222), applied once the direction for this step is fixed:
skip permanent and solid walls, pierce WALL_OUTER only when the cell
one step further is not outer/solid (recording the piercing and
solidifying the 3x3 neighbourhood), pass through rooms, collect
granite into `tunn[]`, and queue intersection doors with the
early-termination roll. -/
def buildTunnelApplyMove (st : CaveState) (dun : DunState) (door_flag : Bool)
    (row1 col1 row_dir col_dir start_row start_col : Int) (r : RandState) :
    TunnelStepOut :=
  let tmp_row := row1 + row_dir
  let tmp_col := col1 + col_dir
  let f := st.cave_feat tmp_row tmp_col
  if f = FEAT_PERM_SOLID ∨ f = FEAT_PERM_OUTER ∨ f = FEAT_WALL_SOLID then
    { st := st, dun := dun, row1 := row1, col1 := col1,
      door_flag := door_flag, r := r, brk := false }
  else if f = FEAT_WALL_OUTER then
    let y := tmp_row + row_dir
    let x := tmp_col + col_dir
    let g := st.cave_feat y x
    if g = FEAT_PERM_SOLID ∨ g = FEAT_PERM_OUTER ∨ g = FEAT_WALL_OUTER ∨
       g = FEAT_WALL_SOLID then
      { st := st, dun := dun, row1 := row1, col1 := col1,
        door_flag := door_flag, r := r, brk := false }
    else
      let dun2 := dunPushWall dun (tmp_row, tmp_col)
      let st2 := { st with cave_feat := convertOuter3x3 st.cave_feat tmp_row tmp_col }
      { st := st2, dun := dun2, row1 := tmp_row, col1 := tmp_col,
        door_flag := door_flag, r := r, brk := false }
  else if infoHasFlag st tmp_row tmp_col CAVE_ROOM then
    { st := st, dun := dun, row1 := tmp_row, col1 := tmp_col,
      door_flag := door_flag, r := r, brk := false }
  else if f ≥ FEAT_WALL_EXTRA then
    { st := st, dun := dunPushTunn dun (tmp_row, tmp_col),
      row1 := tmp_row, col1 := tmp_col, door_flag := false, r := r, brk := false }
  else
    let dun2 := if ¬ door_flag then dunPushDoor dun (tmp_row, tmp_col) else dun
    let p := rand_int r 100
    let brk := p.1 ≥ DUN_TUN_CON ∧
      ((tmp_row - start_row).natAbs > 10 ∨ (tmp_col - start_col).natAbs > 10)
    { st := st, dun := dun2, row1 := tmp_row, col1 := tmp_col,
      door_flag := true, r := p.2, brk := brk }

/-- The direction choice of `build_tunnel_winding` (lines 2885..2913):
60% a componentwise step toward the target with a coin breaking
diagonals, else a draw from the direction tables. -/
def windingChooseDir (r : RandState) (y x row2 col2 : Int) : (Int × Int) × RandState :=
  let p := rand_int r 100
  if p.1 < 60 then
    let dir_y0 : Int := if y < row2 then 1 else if y > row2 then -1 else 0
    let dir_x0 : Int := if x < col2 then 1 else if x > col2 then -1 else 0
    if dir_y0 ≠ 0 ∧ dir_x0 ≠ 0 then
      let q := rand_int p.2 2
      if q.1 = 0 then ((dir_y0, 0), q.2) else ((0, dir_x0), q.2)
    else ((dir_y0, dir_x0), p.2)
  else
    let q := rand_int p.2 4
    ((ddy_ddd q.1, ddx_ddd q.1), q.2)

/-- The output of one winding-walker step. -/
structure WindingStepOut where
  st : CaveState
  dun : DunState
  y : Int
  x : Int
  door_flag : Bool

/-- The cell-processing body of `build_tunnel_winding` (generate.c
lines 2915..2976), applied once the direction is fixed: an
out-of-bounds step is skipped without moving; otherwise the walker
moves, skips permanent and solid walls, on WALL_OUTER merely records
the piercing in `wall[]` (the source comments away both the next-cell
check and the solid-wall conversion), passes through rooms, collects
granite into `tunn[]`, and queues intersection doors. -/
def windingApplyMove (st : CaveState) (dun : DunState) (door_flag : Bool)
    (y x dir_y dir_x : Int) : WindingStepOut :=
  if ¬ in_bounds (y + dir_y) (x + dir_x) then
    { st := st, dun := dun, y := y, x := x, door_flag := door_flag }
  else
    let y2 := y + dir_y
    let x2 := x + dir_x
    let f := st.cave_feat y2 x2
    if f = FEAT_PERM_SOLID ∨ f = FEAT_PERM_OUTER ∨ f = FEAT_WALL_SOLID then
      { st := st, dun := dun, y := y2, x := x2, door_flag := door_flag }
    else if f = FEAT_WALL_OUTER then
      { st := st, dun := dunPushWall dun (y2, x2), y := y2, x := x2,
        door_flag := door_flag }
    else if infoHasFlag st y2 x2 CAVE_ROOM then
      { st := st, dun := dun, y := y2, x := x2, door_flag := door_flag }
    else if f ≥ FEAT_WALL_EXTRA then
      { st := st, dun := dunPushTunn dun (y2, x2), y := y2, x := x2,
        door_flag := false }
    else
      let dun2 := if ¬ door_flag then dunPushDoor dun (y2, x2) else dun
      { st := st, dun := dun2, y := y2, x := x2, door_flag := true }

/-! ### The patrol state machine (src/src/patrol.c) -/

/-- Modelled from the spec: the GUARD_STATE_* codes are in a missing
header; only case identity matters. -/
def GUARD_STATE_PATROL : Nat := 0
/-- See `GUARD_STATE_PATROL`. -/
def GUARD_STATE_GUARD : Nat := 1
/-- See `GUARD_STATE_PATROL`. -/
def GUARD_STATE_SLEEP : Nat := 2
/-- See `GUARD_STATE_PATROL`. -/
def GUARD_STATE_ALERT : Nat := 3
/-- See `GUARD_STATE_PATROL`. -/
def GUARD_STATE_CHASE : Nat := 4
/-- See `GUARD_STATE_PATROL`. -/
def GUARD_STATE_RETURN : Nat := 5

/-- Modelled from the spec: the PATROL_TYPE_* codes are in a missing
header. -/
def PATROL_TYPE_RANDOM : Nat := 0
/-- See `PATROL_TYPE_RANDOM`. -/
def PATROL_TYPE_CIRCUIT : Nat := 1
/-- See `PATROL_TYPE_RANDOM`. -/
def PATROL_TYPE_BACKFORTH : Nat := 2
/-- See `PATROL_TYPE_RANDOM`. -/
def PATROL_TYPE_STATIONARY : Nat := 3

/-- Modelled from the spec: patrol tunables from a missing header
(patrol radius, rest turns, chase timeout, alert radius); only
positivity matters for the claims. -/
def PATROL_RADIUS : Nat := 8
/-- See `PATROL_RADIUS`. -/
def PATROL_REST_TURNS : Nat := 5
/-- See `PATROL_RADIUS`. -/
def GUARD_CHASE_TIMEOUT : Int := 20
/-- See `PATROL_RADIUS`. -/
def GUARD_ALERT_RADIUS : Nat := 10

/-- Modelled from the spec: the COVER_STEALTH_* bonuses from a
missing header. -/
def COVER_STEALTH_LIGHT : Int := 2
/-- See `COVER_STEALTH_LIGHT`. -/
def COVER_STEALTH_MEDIUM : Int := 4
/-- See `COVER_STEALTH_LIGHT`. -/
def COVER_STEALTH_HEAVY : Int := 6

/-- `get_stealth_bonus_from_cover` from patrol.c. -/
def get_stealth_bonus_from_cover (cs : CoverState) (y x : Int) : Int :=
  let cover := get_cover_at cs y x
  if cover = COVER_LIGHT then COVER_STEALTH_LIGHT
  else if cover = COVER_MEDIUM then COVER_STEALTH_MEDIUM
  else if cover = COVER_HEAVY then COVER_STEALTH_HEAVY
  else if cover = COVER_TOTAL then COVER_STEALTH_HEAVY
  else 0

/-- One patrol waypoint. -/
structure Waypoint where
  y : Int
  x : Int
  wait_turns : Int
  deriving Repr, DecidableEq

/-- The per-monster `monster_guard_data` record; the waypoint array
is modelled as a function. -/
structure GuardData where
  guard_state : Nat
  patrol_type : Nat
  home_y : Int
  home_x : Int
  alert_y : Int
  alert_x : Int
  chase_timer : Int
  num_waypoints : Nat
  current_waypoint : Nat
  waypoints : Nat → Waypoint

/-- Update one waypoint slot. -/
def setWaypoint (g : GuardData) (i : Nat) (w : Waypoint) : GuardData :=
  { g with waypoints := fun j => if j = i then w else g.waypoints j }

/-- `advance_patrol_waypoint` from patrol.c: CIRCUIT wraps modulo the
count; BACKFORTH reverses at the ends using the 0x80 direction bit of
`current_waypoint`; RANDOM reseeds waypoint 0 inside the patrol box. -/
def advance_patrol_waypoint (g : GuardData) (r : RandState) : GuardData × RandState :=
  if g.num_waypoints = 0 then (g, r)
  else if g.patrol_type = PATROL_TYPE_CIRCUIT then
    let cw := g.current_waypoint + 1
    (if cw ≥ g.num_waypoints then { g with current_waypoint := 0 }
     else { g with current_waypoint := cw }, r)
  else if g.patrol_type = PATROL_TYPE_BACKFORTH then
    if Nat.land g.current_waypoint 128 ≠ 0 then
      let wp := Nat.land g.current_waypoint 127
      if wp = 0 then ({ g with current_waypoint := 1 }, r)
      else ({ g with current_waypoint := Nat.lor (wp - 1) 128 }, r)
    else
      let cw := g.current_waypoint + 1
      if cw ≥ g.num_waypoints then
        ({ g with current_waypoint := Nat.lor (g.num_waypoints - 2) 128 }, r)
      else ({ g with current_waypoint := cw }, r)
  else if g.patrol_type = PATROL_TYPE_RANDOM then
    let py := rand_int r (PATROL_RADIUS * 2)
    let px := rand_int py.2 (PATROL_RADIUS * 2)
    let w : Waypoint :=
      { y := g.home_y + (py.1 : Int) - (PATROL_RADIUS : Int),
        x := g.home_x + (px.1 : Int) - (PATROL_RADIUS : Int),
        wait_turns := (g.waypoints 0).wait_turns }
    (setWaypoint { g with current_waypoint := 0 } 0 w, px.2)
  else (g, r)

/-- The surroundings read by `execute_patrol_behavior`: the player
position and skill, the monster race alertness, line-of-sight and
floor-passability oracles, and the cover state. -/
structure PatrolEnv where
  player_y : Int
  player_x : Int
  skill_stl : Int
  aaf : Int
  smart : Bool
  los : Int → Int → Bool
  floor : Int → Int → Bool
  cover : CoverState

/-- The result of one `execute_patrol_behavior` turn: the guard
record, the monster position after any `monster_swap`, the returned
handled flag, the RNG, and whether `alert_nearby_guards` fired (its
effect on other monsters is outside the single-monster state). -/
structure PatrolOut where
  guard : GuardData
  fy : Int
  fx : Int
  handled : Bool
  r : RandState
  alerted : Bool

/-- `execute_patrol_behavior` from patrol.c, for a monster that has a
guard record, embedded as one pure turn step.  `monster_swap` becomes
the position update; the smart-monster cover-seek block inside the
chase branch computes a position but (as in the source) performs no
action, so it has no embedded effect. -/
def execute_patrol_behavior (env : PatrolEnv) (g : GuardData)
    (fy fx : Int) (r : RandState) : PatrolOut :=
  if g.guard_state = GUARD_STATE_SLEEP then
    if env.los fy fx ∧
       env.skill_stl + get_stealth_bonus_from_cover env.cover env.player_y env.player_x <
         env.aaf then
      let g2 := { g with
        guard_state := GUARD_STATE_CHASE,
        alert_y := env.player_y, alert_x := env.player_x,
        chase_timer := GUARD_CHASE_TIMEOUT }
      { guard := g2, fy := fy, fx := fx, handled := false, r := r, alerted := true }
    else
      { guard := g, fy := fy, fx := fx, handled := true, r := r, alerted := false }
  else if g.guard_state = GUARD_STATE_GUARD then
    if env.los fy fx then
      let g2 := { g with
        guard_state := GUARD_STATE_CHASE,
        alert_y := env.player_y, alert_x := env.player_x,
        chase_timer := GUARD_CHASE_TIMEOUT }
      { guard := g2, fy := fy, fx := fx, handled := false, r := r, alerted := true }
    else
      { guard := g, fy := fy, fx := fx, handled := true, r := r, alerted := false }
  else if g.guard_state = GUARD_STATE_ALERT then
    if fy = g.alert_y ∧ fx = g.alert_x then
      { guard := { g with guard_state := GUARD_STATE_RETURN },
        fy := fy, fx := fx, handled := true, r := r, alerted := false }
    else if env.los fy fx then
      let g2 := { g with
        guard_state := GUARD_STATE_CHASE,
        chase_timer := GUARD_CHASE_TIMEOUT }
      { guard := g2, fy := fy, fx := fx, handled := false, r := r, alerted := false }
    else
      let dy : Int := if g.alert_y > fy then 1 else if g.alert_y < fy then -1 else 0
      let dx : Int := if g.alert_x > fx then 1 else if g.alert_x < fx then -1 else 0
      if env.floor (fy + dy) (fx + dx) then
        { guard := g, fy := fy + dy, fx := fx + dx, handled := true, r := r,
          alerted := false }
      else
        { guard := g, fy := fy, fx := fx, handled := true, r := r, alerted := false }
  else if g.guard_state = GUARD_STATE_CHASE then
    let g1 := { g with chase_timer := g.chase_timer - 1 }
    if env.los fy fx then
      let g2 := { g1 with
        alert_y := env.player_y, alert_x := env.player_x,
        chase_timer := GUARD_CHASE_TIMEOUT }
      { guard := g2, fy := fy, fx := fx, handled := false, r := r, alerted := false }
    else
      if fy = g1.alert_y ∧ fx = g1.alert_x then
        if g1.chase_timer ≤ 0 then
          { guard := { g1 with guard_state := GUARD_STATE_RETURN },
            fy := fy, fx := fx, handled := true, r := r, alerted := false }
        else
          { guard := g1, fy := fy, fx := fx, handled := false, r := r, alerted := false }
      else
        { guard := g1, fy := fy, fx := fx, handled := false, r := r, alerted := false }
  else if g.guard_state = GUARD_STATE_RETURN then
    let t : Int × Int :=
      if g.patrol_type = PATROL_TYPE_STATIONARY then (g.home_y, g.home_x)
      else if g.num_waypoints > 0 then
        ((g.waypoints g.current_waypoint).y, (g.waypoints g.current_waypoint).x)
      else (g.home_y, g.home_x)
    if fy = t.1 ∧ fx = t.2 then
      if g.patrol_type = PATROL_TYPE_STATIONARY then
        { guard := { g with guard_state := GUARD_STATE_GUARD },
          fy := fy, fx := fx, handled := true, r := r, alerted := false }
      else
        { guard := { g with guard_state := GUARD_STATE_PATROL },
          fy := fy, fx := fx, handled := true, r := r, alerted := false }
    else
      let dy : Int := if t.1 > fy then 1 else if t.1 < fy then -1 else 0
      let dx : Int := if t.2 > fx then 1 else if t.2 < fx then -1 else 0
      if env.floor (fy + dy) (fx + dx) then
        { guard := g, fy := fy + dy, fx := fx + dx, handled := true, r := r,
          alerted := false }
      else
        { guard := g, fy := fy, fx := fx, handled := true, r := r, alerted := false }
  else if g.guard_state = GUARD_STATE_PATROL then
    if env.los fy fx then
      let g2 := { g with
        guard_state := GUARD_STATE_CHASE,
        alert_y := env.player_y, alert_x := env.player_x,
        chase_timer := GUARD_CHASE_TIMEOUT }
      { guard := g2, fy := fy, fx := fx, handled := false, r := r, alerted := true }
    else if g.num_waypoints = 0 then
      let p := rand_int r 100
      if p.1 < 30 then
        let py := rand_int p.2 3
        let px := rand_int py.2 3
        let dy := (py.1 : Int) - 1
        let dx := (px.1 : Int) - 1
        if env.floor (fy + dy) (fx + dx) then
          { guard := g, fy := fy + dy, fx := fx + dx, handled := true, r := px.2,
            alerted := false }
        else
          { guard := g, fy := fy, fx := fx, handled := true, r := px.2,
            alerted := false }
      else
        { guard := g, fy := fy, fx := fx, handled := true, r := p.2, alerted := false }
    else
      let wp := g.waypoints g.current_waypoint
      if fy = wp.y ∧ fx = wp.x then
        let wp2 := { wp with wait_turns := wp.wait_turns - 1 }
        if wp2.wait_turns ≤ 0 then
          let p := rand_int r PATROL_REST_TURNS
          let g2 := setWaypoint g g.current_waypoint
            { wp2 with wait_turns := 5 + (p.1 : Int) }
          let a := advance_patrol_waypoint g2 p.2
          { guard := a.1, fy := fy, fx := fx, handled := true, r := a.2,
            alerted := false }
        else
          { guard := setWaypoint g g.current_waypoint wp2,
            fy := fy, fx := fx, handled := true, r := r, alerted := false }
      else
        let dy : Int := if wp.y > fy then 1 else if wp.y < fy then -1 else 0
        let dx : Int := if wp.x > fx then 1 else if wp.x < fx then -1 else 0
        if env.floor (fy + dy) (fx + dx) then
          { guard := g, fy := fy + dy, fx := fx + dx, handled := true, r := r,
            alerted := false }
        else
          { guard := g, fy := fy, fx := fx, handled := true, r := r, alerted := false }
  else
    { guard := g, fy := fy, fx := fx, handled := true, r := r, alerted := false }

/-! ### Cover population and the seed pipeline (generate.c) -/

/-- The full generation state: the cave layers and the
destructible-cover records. -/
structure GenState where
  base : CaveState
  cave_cover : Int → Int → Option CoverData

/-- The cover-engine view of the generation state. -/
def genToCover (g : GenState) : CoverState :=
  { cave_feat := g.base.cave_feat, cave_cover := g.cave_cover }

/-- Fold a cover-engine result back into the generation state. -/
def genPutCover (g : GenState) (cs : CoverState) : GenState :=
  { base := { g.base with cave_feat := cs.cave_feat },
    cave_cover := cs.cave_cover }

/-- The inner `for (j = 0; j < num_cover; j++)` loop of
`populate_cover_features`: scatter cover items near a room center,
requiring in-bounds naked floor, and roll the item kind
(30% crate, then 20% barrel, then 20% stone pillar, else boulder). -/
def coverItemsLoop (c : Int × Int) : Nat → GenState → RandState → GenState × RandState
  | 0, g, r => (g, r)
  | j + 1, g, r =>
    let py := rand_spread r c.1 4
    let px := rand_spread py.2 c.2 4
    let ty := py.1
    let tx := px.1
    if ¬ in_bounds ty tx then coverItemsLoop c j g px.2
    else if cave_naked_bold g.base ty tx then
      let roll := rand_int px.2 100
      let feat := if roll.1 < 30 then FEAT_CRATE
        else if roll.1 < 50 then FEAT_BARREL
        else if roll.1 < 70 then FEAT_STONE_PILLAR
        else FEAT_BOULDER
      let dura : Int := if roll.1 < 30 then 20
        else if roll.1 < 50 then 20
        else if roll.1 < 70 then (COVER_DURABILITY_WALL : Int)
        else (COVER_DURABILITY_BOULDER : Int)
      let ctyp := if roll.1 < 30 then COVER_LIGHT
        else if roll.1 < 50 then COVER_LIGHT
        else if roll.1 < 70 then COVER_HEAVY
        else COVER_MEDIUM
      let g2 := genPutCover g (create_cover_at (genToCover g) ty tx ctyp dura feat)
      coverItemsLoop c j g2 roll.2
    else coverItemsLoop c j g px.2

/-- `populate_cover_features` from generate.c (lines 4969..5012):
for each room center, a 50% roll scatters 2..5 destructible cover
items near the center. -/
def populate_cover_features (centers : List (Int × Int)) (g : GenState)
    (r : RandState) : GenState × RandState :=
  centers.foldl (fun acc c =>
    let roll := rand_int acc.2 100
    if roll.1 < 50 then
      let nc := rand_int roll.2 4
      coverItemsLoop c (2 + nc.1) acc.1 nc.2
    else (acc.1, roll.2)) (g, r)

/-- The seeded stair phase run by `cave_gen` while Rand_quick is on:
a model of the quick-mode portion of one `generate_cave` invocation
between the seeding (`Rand_value = seed_dungeon + depth`) and the
switch back to the stable stream.  The room/tunnel passes that
precede it are abstracted into the base state. -/
def seededStairPhase (seed depth : Nat) (ambient : Nat → Nat) (ambientIdx : Nat)
    (fuel : Nat) (st : CaveState) : Option (CaveState × RandState) :=
  let r0 : RandState :=
    { quick := true, value := w32 (seed + depth), seq := ambient, idx := ambientIdx }
  caveGenStairsPass { depth := depth, inside_special := Special.norm } false fuel st r0

/-- A model of one seeded `generate_cave` invocation restricted to
the layers and passes under study: seed the quick RNG with
`seed_dungeon + depth` (generate_cave lines 6414..6419), run the
seeded stair phase, then turn Rand_quick off (cave_gen lines
5978..5981) and run `populate_cover_features` on the stable ambient
stream (cave_gen line 6085). -/
def caveGenSeedModel (seed depth : Nat) (centers : List (Int × Int))
    (g0 : GenState) (ambient : Nat → Nat) (fuel : Nat) : Option GenState :=
  match seededStairPhase seed depth ambient 0 fuel g0.base with
  | none => none
  | some (st2, r2) =>
    let r3 := { r2 with quick := false }
    some (populate_cover_features centers { g0 with base := st2 } r3).1

/-- Two RNG states agree as quick-mode states: both have Rand_quick
on and hold the same Rand_value; the ambient stream and its cursor
may differ arbitrarily. -/
def randRel (r r2 : RandState) : Prop :=
  r.quick = true ∧ r2.quick = true ∧ r.value = r2.value

/-- Lift `randRel` to the result of one stair-placement loop: equal
grids and wall counters, related RNG states. -/
def stairResRel : Option (CaveState × RandState × Nat) →
    Option (CaveState × RandState × Nat) → Prop
  | none, none => True
  | some (s, ra, wa), some (s2, rb, wb) => s = s2 ∧ wa = wb ∧ randRel ra rb
  | none, some _ => False
  | some _, none => False

/-! ### Concrete inputs used by the witnesses and counterexamples -/

/-- An all-floor cover state. -/
def floorCover : CoverState :=
  { cave_feat := fun _ _ => FEAT_FLOOR, cave_cover := fun _ _ => none }

/-- A single stone pillar at (4, 5) on floor. -/
def pillarCS : CoverState :=
  { cave_feat := fun y x => if y = 4 ∧ x = 5 then FEAT_STONE_PILLAR else FEAT_FLOOR,
    cave_cover := fun _ _ => none }

/-- A single chaos-fog cell at (5, 3) on floor. -/
def chaosCS : CoverState :=
  { cave_feat := fun y x => if y = 5 ∧ x = 3 then FEAT_CHAOS_FOG else FEAT_FLOOR,
    cave_cover := fun _ _ => none }

/-- A destroyed crate record (durability 0) at (2, 2) on floor. -/
def deadCrateCS : CoverState :=
  { cave_feat := fun _ _ => FEAT_FLOOR,
    cave_cover := fun y x =>
      if y = 2 ∧ x = 2 then
        some { durability := 0, max_durability := 20,
               cover_type := COVER_LIGHT, terrain_feat := FEAT_CRATE }
      else none }

/-- The record stored in `deadCrateCS`. -/
def deadCrateRec : CoverData :=
  { durability := 0, max_durability := 20,
    cover_type := COVER_LIGHT, terrain_feat := FEAT_CRATE }

/-- A stable-mode RNG over the all-zero ambient stream. -/
def stdRand : RandState :=
  { quick := false, value := 0, seq := fun _ => 0, idx := 0 }

/-- Patrol surroundings with the player out of sight. -/
def noLosEnv : PatrolEnv :=
  { player_y := 0, player_x := 0, skill_stl := 0, aaf := 10, smart := false,
    los := fun _ _ => false, floor := fun _ _ => true, cover := floorCover }

/-- A chasing guard whose chase timer has run out, away from its
last-known-position (3, 3). -/
def chaseGuard : GuardData :=
  { guard_state := GUARD_STATE_CHASE, patrol_type := PATROL_TYPE_CIRCUIT,
    home_y := 3, home_x := 3, alert_y := 3, alert_x := 3, chase_timer := 0,
    num_waypoints := 4, current_waypoint := 0,
    waypoints := fun _ => { y := 3, x := 3, wait_turns := 5 } }

/-- A checkerboard base grid: interior cells with odd coordinate sum
are naked floor pockets (each has four granite neighbours), everything
else is granite. -/
def boardBase : CaveState :=
  { cave_feat := fun y x =>
      if 0 < y ∧ y < 65 ∧ 0 < x ∧ x < 197 ∧ (y + x) % 2 = 1 then FEAT_FLOOR
      else FEAT_WALL_EXTRA,
    cave_o_idx := fun _ _ => 0,
    cave_m_idx := fun _ _ => 0,
    cave_info := fun _ _ => 0 }

/-- An ambient stream driving the stair pass deterministically over
`boardBase`: index 0 and index 201 feed the two `rand_range` draws
(choosing 100 down stairs and 40 up stairs), and each subsequent index
pair picks a fresh checkerboard pocket. -/
def c2seq (n : Nat) : Nat :=
  if n = 0 ∨ n = 201 then 0
  else if n ≤ 200 then
    let k := (n - 1) / 2
    if (n - 1) % 2 = 0 then 2 * (k % 32) + 1 else 2 * (k / 32) + 2
  else
    let m := n - 202
    let k := m / 2 + 100
    if m % 2 = 0 then 2 * (k % 32) + 1 else 2 * (k / 32) + 2

/-- The stable-mode RNG over `c2seq`. -/
def c2Rand : RandState :=
  { quick := false, value := 0, seq := c2seq, idx := 0 }

/-- A standard dungeon level: depth 5, no special sublevel. -/
def stdEnv : GenEnv := { depth := 5, inside_special := Special.norm }

/-- The generation state over the checkerboard base, no cover. -/
def boardGen : GenState :=
  { base := boardBase, cave_cover := fun _ _ => none }

/-- An ambient stream that is constantly 99 (every 50% roll fails). -/
def seqNinetyNine : Nat → Nat := fun _ => 99

/-- An ambient stream that is constantly 0 (every roll passes with
its smallest value). -/
def seqZero : Nat → Nat := fun _ => 0

/-- An empty dun-state. -/
def emptyDun : DunState := { wall := [], tunn := [], door := [] }

/-- Two adjacent room outer-wall cells at (5, 5) and (5, 6) on floor:
a walker travelling east from (5, 4) enters the first with the second
directly beyond it. -/
def outerPairSt : CaveState :=
  { cave_feat := fun y x =>
      if (y = 5 ∧ x = 5) ∨ (y = 5 ∧ x = 6) then FEAT_WALL_OUTER else FEAT_FLOOR,
    cave_o_idx := fun _ _ => 0,
    cave_m_idx := fun _ _ => 0,
    cave_info := fun _ _ => 0 }

/-! ## Helper lemmas -/

theorem layerSet_apply (g : Layer) (y x : Int) (v : Nat) (b a : Int) :
    layerSet g y x v b a = if b = y ∧ a = x then v else g b a := rfl

theorem paintRowLoop_apply (g : Layer) (y : Int) (v : Nat) (n : Nat) (b a : Int) :
    paintRowLoop g y v n b a =
      if b = y ∧ 0 ≤ a ∧ a < (n : Int) then v else g b a := by
  induction n with
  | zero =>
    simp only [paintRowLoop, List.range_zero, List.foldl_nil]
    have h : ¬ (b = y ∧ 0 ≤ a ∧ a < ((0 : Nat) : Int)) := by
      rintro ⟨_, h1, h2⟩; omega
    rw [if_neg h]
  | succ n ih =>
    simp only [paintRowLoop, List.range_succ, List.foldl_append, List.foldl_cons,
      List.foldl_nil] at *
    rw [layerSet_apply, ih]
    simp only [Int.ofNat_eq_coe]
    by_cases h1 : b = y ∧ a = (n : Int)
    · rw [if_pos h1]
      have h2 : b = y ∧ 0 ≤ a ∧ a < ((n + 1 : Nat) : Int) := by
        refine ⟨h1.1, ?_, ?_⟩ <;> (have h9 := h1.2; push_cast; omega)
      rw [if_pos h2]
    · rw [if_neg h1]
      by_cases h2 : b = y ∧ 0 ≤ a ∧ a < (n : Int)
      · rw [if_pos h2]
        have h3 : b = y ∧ 0 ≤ a ∧ a < ((n + 1 : Nat) : Int) := by
          refine ⟨h2.1, h2.2.1, ?_⟩; have := h2.2.2; push_cast; omega
        rw [if_pos h3]
      · rw [if_neg h2]
        by_cases h3 : b = y ∧ 0 ≤ a ∧ a < ((n + 1 : Nat) : Int)
        · exfalso
          rcases h3 with ⟨hb, h0, hn⟩
          have ha : a = (n : Int) := by push_cast at hn; omega
          exact h1 ⟨hb, ha⟩
        · rw [if_neg h3]

theorem paintColLoop_apply (g : Layer) (x : Int) (v : Nat) (n : Nat) (b a : Int) :
    paintColLoop g x v n b a =
      if a = x ∧ 0 ≤ b ∧ b < (n : Int) then v else g b a := by
  induction n with
  | zero =>
    simp only [paintColLoop, List.range_zero, List.foldl_nil]
    have h : ¬ (a = x ∧ 0 ≤ b ∧ b < ((0 : Nat) : Int)) := by
      rintro ⟨_, h1, h2⟩; omega
    rw [if_neg h]
  | succ n ih =>
    simp only [paintColLoop, List.range_succ, List.foldl_append, List.foldl_cons,
      List.foldl_nil] at *
    rw [layerSet_apply, ih]
    simp only [Int.ofNat_eq_coe]
    by_cases h1 : b = (n : Int) ∧ a = x
    · rw [if_pos h1]
      have h2 : a = x ∧ 0 ≤ b ∧ b < ((n + 1 : Nat) : Int) := by
        refine ⟨h1.2, ?_, ?_⟩ <;> (have h9 := h1.1; push_cast; omega)
      rw [if_pos h2]
    · rw [if_neg h1]
      by_cases h2 : a = x ∧ 0 ≤ b ∧ b < (n : Int)
      · rw [if_pos h2]
        have h3 : a = x ∧ 0 ≤ b ∧ b < ((n + 1 : Nat) : Int) := by
          refine ⟨h2.1, h2.2.1, ?_⟩; have := h2.2.2; push_cast; omega
        rw [if_pos h3]
      · rw [if_neg h2]
        by_cases h3 : a = x ∧ 0 ≤ b ∧ b < ((n + 1 : Nat) : Int)
        · exfalso
          rcases h3 with ⟨hx, h0, hn⟩
          have hb : b = (n : Int) := by push_cast at hn; omega
          exact h1 ⟨hb, hx⟩
        · rw [if_neg h3]

theorem paintBoundary_ring (v : Nat) (g : Layer) (y x : Int)
    (h : onOuterRing y x) : paintBoundary v g y x = v := by
  rcases h with ⟨hb, hring⟩
  have hb2 : 0 ≤ y ∧ y < 66 ∧ 0 ≤ x ∧ x < 198 := by
    simpa [in_bounds, DUNGEON_HGT, DUNGEON_WID, decide_eq_true_eq] using hb
  have hr : y = 0 ∨ y = 65 ∨ x = 0 ∨ x = 197 := by
    have e1 : ((DUNGEON_HGT : Nat) : Int) - 1 = 65 := by decide
    have e2 : ((DUNGEON_WID : Nat) : Int) - 1 = 197 := by decide
    rcases hring with h | h | h | h
    · exact Or.inl h
    · exact Or.inr (Or.inl (by rw [e1] at h; exact h))
    · exact Or.inr (Or.inr (Or.inl h))
    · exact Or.inr (Or.inr (Or.inr (by rw [e2] at h; exact h)))
  simp only [paintBoundary, paintColLoop_apply, paintRowLoop_apply,
    DUNGEON_HGT, DUNGEON_WID]
  split_ifs with h1 h2 h3 h4
  · rfl
  · rfl
  · rfl
  · rfl
  · exfalso
    push_cast at h1 h2 h3 h4
    omega

/-! ## Claim theorems -/

/-- Claim C1: for the run-length-encoded dungeon writer over a 10x10
all-zero grid, running with the terminal flush (fix = 1) writes
exactly the two bytes (100, 0), and running without it (fix = 0)
writes no bytes at all. -/
theorem c1_rle_terminal_flush :
    wr_dungeon_sim (fun _ _ => 0) true = [100, 0] ∧
    (wr_dungeon_sim (fun _ _ => 0) true).length = 2 ∧
    wr_dungeon_sim (fun _ _ => 0) false = [] ∧
    (wr_dungeon_sim (fun _ _ => 0) false).length = 0 := by
  refine ⟨by decide, ?_, by decide, ?_⟩ <;> decide

/-- Claim C9: wilderness tileability.  For every RNG draw function,
every 32-bit seed and every tile coordinate, the corner value used
for the top-left corner of tile (wild_x + 1, wild_y) equals the value
used for the top-right corner of tile (wild_x, wild_y) under the
corner hash, so adjacent tiles share edge corner values. -/
theorem c9_wilderness_tileability (draw : Nat → Nat) (seed_wild wx wy : Nat) :
    cornerTopLeft draw seed_wild (addw wx 1) wy =
      cornerTopRight draw seed_wild wx wy := rfl

/-- Claim C10: `get_cover_at` is total and guarded.  Out-of-bounds
coordinates yield COVER_NONE, and a destructible-cover record is
honoured only while its durability is strictly positive: a record
with durability at most 0 yields COVER_NONE rather than the record
tier or the underlying feature tier. -/
theorem c10_get_cover_at_guarded (cs : CoverState) (y x : Int) :
    (in_bounds y x = false → get_cover_at cs y x = COVER_NONE) ∧
    (∀ d : CoverData, cs.cave_cover y x = some d →
      (0 < d.durability → get_cover_at cs y x =
        if in_bounds y x then d.cover_type else COVER_NONE) ∧
      (d.durability ≤ 0 → get_cover_at cs y x = COVER_NONE)) := by
  constructor
  · intro h
    simp [get_cover_at, h]
  · intro d hd
    constructor
    · intro hpos
      by_cases hb : in_bounds y x
      · simp [get_cover_at, hb, hd, hpos]
      · simp [get_cover_at, hb]
    · intro hle
      by_cases hb : in_bounds y x
      · have : ¬ d.durability > 0 := by omega
        simp [get_cover_at, hb, hd, this]
      · simp [get_cover_at, hb]

/-- Witness for C10 at concrete inputs: the out-of-bounds coordinate
(-1, 0) yields COVER_NONE, and the durability-0 crate record of
`deadCrateCS` at (2, 2) yields COVER_NONE. -/
theorem c10_get_cover_at_guarded_witness :
    get_cover_at deadCrateCS (-1) 0 = COVER_NONE ∧
    get_cover_at deadCrateCS 2 2 = COVER_NONE :=
  ⟨(c10_get_cover_at_guarded deadCrateCS (-1) 0).1 (by decide),
   ((c10_get_cover_at_guarded deadCrateCS 2 2).2 deadCrateRec rfl).2 (by decide)⟩

/-- Claim C8 (code bug evaluation): a monster in CHASE with the
player out of sight, with its chase timer already at 0, but standing
away from its last-known-position (3, 3), stays in CHASE after the
turn (the timeout block of the chase branch is unreachable: both
arms of the preceding conditional return first), where the claim
requires a transition to RETURN regardless of position. -/
theorem c8_chase_timeout_stuck :
    (execute_patrol_behavior noLosEnv chaseGuard 5 5 stdRand).guard.guard_state =
      GUARD_STATE_CHASE ∧
    (execute_patrol_behavior noLosEnv chaseGuard 5 5 stdRand).guard.guard_state ≠
      GUARD_STATE_RETURN ∧
    (execute_patrol_behavior noLosEnv chaseGuard 5 5 stdRand).handled = false ∧
    chaseGuard.chase_timer ≤ 0 ∧
    noLosEnv.los 5 5 = false ∧
    ¬ (5 = chaseGuard.alert_y ∧ 5 = chaseGuard.alert_x) := by
  refine ⟨?_, ?_, ?_, ?_, ?_, ?_⟩ <;> decide

/-- Claim C3 (amended): the boundary pass of `cave_gen` makes every
outer-ring cell permanent-solid; the wilderness/town path
(`terrain_gen`) instead paints the ring with FEAT_UNSEEN (see the
counterexample), so the invariant holds for the cave path only. -/
theorem c3_cave_gen_ring_perm_solid (st : CaveState) (y x : Int)
    (h : onOuterRing y x) :
    (cave_gen_boundary st).cave_feat y x = FEAT_PERM_SOLID :=
  paintBoundary_ring FEAT_PERM_SOLID st.cave_feat y x h

/-- Witness for the amended C3 at the concrete ring cell (0, 7). -/
theorem c3_cave_gen_ring_perm_solid_witness :
    (cave_gen_boundary boardBase).cave_feat 0 7 = FEAT_PERM_SOLID :=
  c3_cave_gen_ring_perm_solid boardBase 0 7 (by constructor <;> decide)

/-- Counterexample for C3 as stated: after the `terrain_gen` boundary
pass (the wilderness and town generation path of `generate_cave`),
the ring cell (0, 0) holds FEAT_UNSEEN, not FEAT_PERM_SOLID. -/
theorem c3_terrain_gen_ring_unseen :
    onOuterRing 0 0 ∧
    terrain_gen_boundary (fun _ _ => FEAT_FLOOR) 0 0 = FEAT_UNSEEN ∧
    FEAT_UNSEEN ≠ FEAT_PERM_SOLID := by
  refine ⟨⟨by decide, by decide⟩, by decide, by decide⟩

theorem convertFoldAux (l : List (Int × Int)) :
    ∀ (g : Layer) (cy cx b a : Int),
      (l.foldl (fun acc o =>
        if acc (cy + o.1) (cx + o.2) = FEAT_WALL_OUTER then
          layerSet acc (cy + o.1) (cx + o.2) FEAT_WALL_SOLID
        else acc) g) b a =
      if (∃ p ∈ l, b = cy + p.1 ∧ a = cx + p.2) ∧ g b a = FEAT_WALL_OUTER then
        FEAT_WALL_SOLID
      else g b a := by
  induction l with
  | nil =>
    intro g cy cx b a
    simp
  | cons p l ih =>
    intro g cy cx b a
    simp only [List.foldl_cons]
    rw [ih]
    by_cases hcell : b = cy + p.1 ∧ a = cx + p.2
    · rcases hcell with ⟨hb, ha⟩
      by_cases hout : g b a = FEAT_WALL_OUTER
      · have hstep : (if g (cy + p.1) (cx + p.2) = FEAT_WALL_OUTER then
            layerSet g (cy + p.1) (cx + p.2) FEAT_WALL_SOLID else g) b a =
            FEAT_WALL_SOLID := by
          rw [← hb, ← ha, if_pos hout, layerSet_apply, if_pos ⟨rfl, rfl⟩]
        rw [hstep]
        have hc2 : (∃ q ∈ p :: l, b = cy + q.1 ∧ a = cx + q.2) ∧
            g b a = FEAT_WALL_OUTER :=
          ⟨⟨p, List.mem_cons_self p l, hb, ha⟩, hout⟩
        rw [if_pos hc2]
        have : ¬ ((∃ q ∈ l, b = cy + q.1 ∧ a = cx + q.2) ∧
            FEAT_WALL_SOLID = FEAT_WALL_OUTER) := by
          rintro ⟨_, hso⟩
          exact absurd hso (by decide)
        rw [if_neg this]
      · have hstep : (if g (cy + p.1) (cx + p.2) = FEAT_WALL_OUTER then
            layerSet g (cy + p.1) (cx + p.2) FEAT_WALL_SOLID else g) = g := by
          rw [← hb, ← ha, if_neg hout]
        rw [hstep]
        rw [if_neg (fun h => hout h.2), if_neg (fun h => hout h.2)]
    · have hstep : (if g (cy + p.1) (cx + p.2) = FEAT_WALL_OUTER then
          layerSet g (cy + p.1) (cx + p.2) FEAT_WALL_SOLID else g) b a = g b a := by
        split
        · rw [layerSet_apply, if_neg hcell]
        · rfl
      rw [hstep]
      have hiff : ((∃ q ∈ l, b = cy + q.1 ∧ a = cx + q.2) ∧
          g b a = FEAT_WALL_OUTER) ↔
          ((∃ q ∈ p :: l, b = cy + q.1 ∧ a = cx + q.2) ∧
          g b a = FEAT_WALL_OUTER) := by
        constructor
        · rintro ⟨⟨q, hq, hq2⟩, h2⟩
          exact ⟨⟨q, List.mem_cons_of_mem _ hq, hq2⟩, h2⟩
        · rintro ⟨⟨q, hq, hq2⟩, h2⟩
          rcases List.mem_cons.mp hq with rfl | hq3
          · exact absurd hq2 hcell
          · exact ⟨⟨q, hq3, hq2⟩, h2⟩
      by_cases hc : (∃ q ∈ l, b = cy + q.1 ∧ a = cx + q.2) ∧ g b a = FEAT_WALL_OUTER
      · rw [if_pos hc, if_pos (hiff.mp hc)]
      · rw [if_neg hc, if_neg (fun h2 => hc (hiff.mpr h2))]

theorem convertOuter3x3_sets (g : Layer) (cy cx db da : Int)
    (hdb : db.natAbs ≤ 1) (hda : da.natAbs ≤ 1)
    (hout : g (cy + db) (cx + da) = FEAT_WALL_OUTER) :
    convertOuter3x3 g cy cx (cy + db) (cx + da) = FEAT_WALL_SOLID := by
  unfold convertOuter3x3
  rw [convertFoldAux]
  have hmem : ((db, da) : Int × Int) ∈
      ([(-1, -1), (-1, 0), (-1, 1), (0, -1), (0, 0), (0, 1), (1, -1), (1, 0), (1, 1)] :
        List (Int × Int)) := by
    have h1 : db = -1 ∨ db = 0 ∨ db = 1 := by omega
    have h2 : da = -1 ∨ da = 0 ∨ da = 1 := by omega
    rcases h1 with rfl | rfl | rfl <;> rcases h2 with rfl | rfl | rfl <;> decide
  exact if_pos ⟨⟨(db, da), hmem, rfl, rfl⟩, hout⟩

set_option maxHeartbeats 1000000 in
/-- Claim C5 (amended): only the straight-with-bends tunneler obeys
the full wall-piercing rule.  On entering WALL_OUTER, the straight
walker requires the cell one step further along the direction not to
be outer/solid (rejecting the move otherwise), records the piercing
in walls[], and converts every WALL_OUTER cell of the 3x3
neighbourhood to WALL_SOLID; the winding walker records the piercing
but performs neither the next-cell check nor the conversion (it
accepts the piercing unconditionally and leaves the grid unchanged). -/
theorem c5_wall_piercing (st : CaveState) (dun : DunState) (df : Bool)
    (y x dy dx srow scol : Int) (r : RandState)
    (hin : in_bounds (y + dy) (x + dx) = true)
    (houter : st.cave_feat (y + dy) (x + dx) = FEAT_WALL_OUTER) :
    ((windingApplyMove st dun df y x dy dx).st = st ∧
     (windingApplyMove st dun df y x dy dx).dun = dunPushWall dun (y + dy, x + dx) ∧
     (windingApplyMove st dun df y x dy dx).y = y + dy ∧
     (windingApplyMove st dun df y x dy dx).x = x + dx) ∧
    ((st.cave_feat (y + dy + dy) (x + dx + dx) = FEAT_PERM_SOLID ∨
      st.cave_feat (y + dy + dy) (x + dx + dx) = FEAT_PERM_OUTER ∨
      st.cave_feat (y + dy + dy) (x + dx + dx) = FEAT_WALL_OUTER ∨
      st.cave_feat (y + dy + dy) (x + dx + dx) = FEAT_WALL_SOLID) →
      buildTunnelApplyMove st dun df y x dy dx srow scol r =
        { st := st, dun := dun, row1 := y, col1 := x, door_flag := df,
          r := r, brk := false }) ∧
    (¬ (st.cave_feat (y + dy + dy) (x + dx + dx) = FEAT_PERM_SOLID ∨
        st.cave_feat (y + dy + dy) (x + dx + dx) = FEAT_PERM_OUTER ∨
        st.cave_feat (y + dy + dy) (x + dx + dx) = FEAT_WALL_OUTER ∨
        st.cave_feat (y + dy + dy) (x + dx + dx) = FEAT_WALL_SOLID) →
      (buildTunnelApplyMove st dun df y x dy dx srow scol r).dun =
        dunPushWall dun (y + dy, x + dx) ∧
      (buildTunnelApplyMove st dun df y x dy dx srow scol r).row1 = y + dy ∧
      (buildTunnelApplyMove st dun df y x dy dx srow scol r).col1 = x + dx ∧
      ∀ db da : Int, db.natAbs ≤ 1 → da.natAbs ≤ 1 →
        st.cave_feat (y + dy + db) (x + dx + da) = FEAT_WALL_OUTER →
        (buildTunnelApplyMove st dun df y x dy dx srow scol r).st.cave_feat
          (y + dy + db) (x + dx + da) = FEAT_WALL_SOLID) := by
  have hne : ¬ (FEAT_WALL_OUTER = FEAT_PERM_SOLID ∨ FEAT_WALL_OUTER = FEAT_PERM_OUTER ∨
      FEAT_WALL_OUTER = FEAT_WALL_SOLID) := by decide
  refine ⟨?_, ?_, ?_⟩
  · unfold windingApplyMove
    rw [if_neg (by rw [hin]; simp), if_neg (by rw [houter]; exact hne),
      if_pos houter]
    exact ⟨rfl, rfl, rfl, rfl⟩
  · intro hbad
    unfold buildTunnelApplyMove
    rw [if_neg (by rw [houter]; exact hne), if_pos houter, if_pos hbad]
  · intro hgood
    have hdun : (buildTunnelApplyMove st dun df y x dy dx srow scol r).dun =
        dunPushWall dun (y + dy, x + dx) := by
      unfold buildTunnelApplyMove
      rw [if_neg (by rw [houter]; exact hne), if_pos houter, if_neg hgood]
    have hrow : (buildTunnelApplyMove st dun df y x dy dx srow scol r).row1 = y + dy := by
      unfold buildTunnelApplyMove
      rw [if_neg (by rw [houter]; exact hne), if_pos houter, if_neg hgood]
    have hcol : (buildTunnelApplyMove st dun df y x dy dx srow scol r).col1 = x + dx := by
      unfold buildTunnelApplyMove
      rw [if_neg (by rw [houter]; exact hne), if_pos houter, if_neg hgood]
    have hfeat : (buildTunnelApplyMove st dun df y x dy dx srow scol r).st.cave_feat =
        convertOuter3x3 st.cave_feat (y + dy) (x + dx) := by
      unfold buildTunnelApplyMove
      rw [if_neg (by rw [houter]; exact hne), if_pos houter, if_neg hgood]
    refine ⟨hdun, hrow, hcol, ?_⟩
    intro db da hdb hda hcell
    rw [hfeat]
    exact convertOuter3x3_sets st.cave_feat (y + dy) (x + dx) db da hdb hda hcell

/-- Witness for the amended C5 on `outerPairSt`: a walker at (5, 4)
stepping east enters the outer wall at (5, 5) with another outer wall
directly beyond at (5, 6); the winding walker accepts and records the
piercing while leaving the grid unchanged, and the straight walker
rejects the move outright. -/
theorem c5_wall_piercing_witness :
    (windingApplyMove outerPairSt emptyDun false 5 4 0 1).dun =
      dunPushWall emptyDun (5, 5) ∧
    (windingApplyMove outerPairSt emptyDun false 5 4 0 1).st = outerPairSt ∧
    buildTunnelApplyMove outerPairSt emptyDun false 5 4 0 1 0 0 stdRand =
      { st := outerPairSt, dun := emptyDun, row1 := 5, col1 := 4,
        door_flag := false, r := stdRand, brk := false } := by
  have h := c5_wall_piercing outerPairSt emptyDun false 5 4 0 1 0 0 stdRand
    (by decide) (by decide)
  exact ⟨h.1.2.1, h.1.1, h.2.1 (by decide)⟩

/-- Counterexample for C5 as stated: on `outerPairSt` the winding
walker pierces the outer wall at (5, 5) although the cell one step
further along the direction, (5, 6), is itself WALL_OUTER, and it
leaves that adjacent outer wall unconverted (the shared rule demands
the piercing be refused and the 3x3 neighbourhood solidified). -/
theorem c5_winding_skips_rule_counterexample :
    outerPairSt.cave_feat 5 6 = FEAT_WALL_OUTER ∧
    (windingApplyMove outerPairSt emptyDun false 5 4 0 1).y = 5 ∧
    (windingApplyMove outerPairSt emptyDun false 5 4 0 1).x = 5 ∧
    (windingApplyMove outerPairSt emptyDun false 5 4 0 1).dun.wall = [(5, 5)] ∧
    (windingApplyMove outerPairSt emptyDun false 5 4 0 1).st.cave_feat 5 6 =
      FEAT_WALL_OUTER ∧
    FEAT_WALL_OUTER ≠ FEAT_WALL_SOLID := by
  refine ⟨?_, ?_, ?_, ?_, ?_, ?_⟩ <;> decide

/-- Claim C6 (amended): when the attack is blocked by directional
HEAVY cover (and some cover lies between attacker and target), the
result is a miss with zero damage to the target, and the cover
absorbs nothing: `*cover_damage_out` stays 0 and the state is
untouched (the source returns before any `damage_cover` call). -/
theorem c6_blocked_attack (cs : CoverState) (ay ax ty tx : Int)
    (dmg : Int) (r : RandState)
    (hcover : get_cover_vs_direction cs ty tx ay ax ≠ COVER_NONE)
    (hblock : is_attack_blocked_by_cover cs ty tx ay ax = true) :
    (attack_through_cover cs ay ax ty tx dmg r).hit = false ∧
    (attack_through_cover cs ay ax ty tx dmg r).damage = 0 ∧
    (attack_through_cover cs ay ax ty tx dmg r).cover_damage_out = 0 ∧
    (attack_through_cover cs ay ax ty tx dmg r).cs = cs ∧
    (attack_through_cover cs ay ax ty tx dmg r).r = r := by
  unfold attack_through_cover
  rw [if_neg hcover]
  rw [if_pos (by rw [hblock])]
  exact ⟨rfl, rfl, rfl, rfl, rfl⟩

/-- Witness for the amended C6: a stone pillar at (4, 5) directly
between attacker (1, 5) and target (5, 5). -/
theorem c6_blocked_attack_witness :
    (attack_through_cover pillarCS 1 5 5 5 100 stdRand).hit = false ∧
    (attack_through_cover pillarCS 1 5 5 5 100 stdRand).damage = 0 ∧
    (attack_through_cover pillarCS 1 5 5 5 100 stdRand).cover_damage_out = 0 ∧
    (attack_through_cover pillarCS 1 5 5 5 100 stdRand).cs = pillarCS ∧
    (attack_through_cover pillarCS 1 5 5 5 100 stdRand).r = stdRand :=
  c6_blocked_attack pillarCS 1 5 5 5 100 stdRand (by decide) (by decide)

/-- Counterexample for C6 as stated: with a stone pillar at (4, 5)
blocking the attack from (1, 5) on the target at (5, 5) and original
damage 100, the attack misses with damage 0, but `*cover_damage_out`
is 0, not the original damage 100. -/
theorem c6_blocked_absorb_counterexample :
    is_attack_blocked_by_cover pillarCS 5 5 1 5 = true ∧
    (attack_through_cover pillarCS 1 5 5 5 100 stdRand).hit = false ∧
    (attack_through_cover pillarCS 1 5 5 5 100 stdRand).damage = 0 ∧
    (attack_through_cover pillarCS 1 5 5 5 100 stdRand).cover_damage_out = 0 ∧
    (attack_through_cover pillarCS 1 5 5 5 100 stdRand).cover_damage_out ≠ 100 := by
  refine ⟨?_, ?_, ?_, ?_, ?_⟩ <;> decide

/-- Claim C7 (amended): in the directional cover scan, fog, dense fog
and smoke cells on the traced line are skipped and contribute nothing
to the best tier; chaos fog is not in the skip list and contributes
its LIGHT tier to the running best. -/
theorem c7_fog_skip_chaos_contributes (cs : CoverState) (ay ax dy dx : Int)
    (dist rem i best : Nat) (y x : Int)
    (hy : y = ay + cdiv (dy * (i : Int)) dist)
    (hx : x = ax + cdiv (dx * (i : Int)) dist)
    (hin : in_bounds y x = true) :
    ((cs.cave_feat y x = FEAT_FOG ∨ cs.cave_feat y x = FEAT_FOG_DENSE ∨
      cs.cave_feat y x = FEAT_SMOKE) →
      coverScanLoop cs ay ax dy dx dist (rem + 1) i best =
        coverScanLoop cs ay ax dy dx dist rem (i + 1) best) ∧
    (cs.cave_feat y x = FEAT_CHAOS_FOG → cs.cave_cover y x = none →
      best < COVER_TOTAL →
      coverScanLoop cs ay ax dy dx dist (rem + 1) i best =
        coverScanLoop cs ay ax dy dx dist rem (i + 1)
          (if COVER_LIGHT > best then COVER_LIGHT else best)) := by
  subst hy hx
  constructor
  · intro hfog
    conv_lhs => unfold coverScanLoop
    rw [if_neg (by rw [hin]; simp), if_pos hfog]
  · intro hchaos hrec hbest
    conv_lhs => unfold coverScanLoop
    rw [if_neg (by rw [hin]; simp)]
    rw [if_neg (by rw [hchaos]; decide)]
    have hcov : get_cover_at cs (ay + cdiv (dy * (i : Int)) dist)
        (ax + cdiv (dx * (i : Int)) dist) = COVER_LIGHT := by
      unfold get_cover_at
      rw [if_neg (by rw [hin]; simp), hrec, hchaos]
      decide
    rw [hcov]
    rw [if_neg (by
      split
      · decide
      · simp only [COVER_TOTAL] at hbest ⊢; omega)]

/-- Witness for the amended C7: the scan over `chaosCS` from attacker
(5, 0) toward target (5, 6) reaches the chaos-fog cell (5, 3) at step
i = 3 and raises the running best from NONE to LIGHT instead of
skipping it. -/
theorem c7_fog_skip_witness :
    coverScanLoop chaosCS 5 0 0 6 6 3 3 0 =
      coverScanLoop chaosCS 5 0 0 6 6 2 4
        (if COVER_LIGHT > 0 then COVER_LIGHT else 0) :=
  (c7_fog_skip_chaos_contributes chaosCS 5 0 0 6 6 2 3 0 5 3 (by decide)
    (by decide) (by decide)).2 rfl rfl (by decide)

/-- Counterexample for C7 as stated: a chaos-fog cell at (5, 3) on
the line from attacker (5, 0) to target (5, 6) makes
`get_cover_vs_direction` return COVER_LIGHT, while with the chaos fog
absent the same query returns COVER_NONE — the fog-family member
chaos-fog is not skipped and does contribute to the best tier. -/
theorem c7_chaos_contributes_counterexample :
    chaosCS.cave_feat 5 3 = FEAT_CHAOS_FOG ∧
    get_cover_vs_direction chaosCS 5 6 5 0 = COVER_LIGHT ∧
    get_cover_vs_direction floorCover 5 6 5 0 = COVER_NONE ∧
    COVER_LIGHT ≠ COVER_NONE := by
  refine ⟨?_, ?_, ?_, ?_⟩ <;> decide

theorem rand_int_lt (r : RandState) (n : Nat) (hn : 0 < n) : (rand_int r n).1 < n := by
  unfold rand_int
  split <;> exact Nat.mod_lt _ hn

theorem rand_range_bounds (r : RandState) (a b : Nat) (hab : a ≤ b) :
    a ≤ (rand_range r a b).1 ∧ (rand_range r a b).1 ≤ b := by
  unfold rand_range
  dsimp only
  refine ⟨Nat.le_add_right a _, ?_⟩
  have := rand_int_lt r (1 + b - a) (by omega)
  omega

theorem stairFeatureFor_std (env : GenEnv) (f : Nat) (hd : env.depth ≠ 0)
    (hs : env.inside_special = Special.norm) (ht : env.depth < MAX_DEPTH - 1) :
    stairFeatureFor env f = f := by
  unfold stairFeatureFor
  rw [if_neg hd, if_neg]
  rintro (hq | hq)
  · rw [hs] at hq; exact absurd hq (by decide)
  · omega

theorem stSetFeat_feat (st : CaveState) (y x : Int) (v : Nat) (b a : Int) :
    (stSetFeat st y x v).cave_feat b a = if b = y ∧ a = x then v else st.cave_feat b a :=
  rfl

theorem cave_naked_floor (st : CaveState) (y x : Int)
    (h : cave_naked_bold st y x = true) : st.cave_feat y x = FEAT_FLOOR := by
  unfold cave_naked_bold at h
  simp only [Bool.and_eq_true, decide_eq_true_eq] at h
  exact h.1.1

theorem countLess_set_less (st : CaveState) (y x : Int)
    (hy1 : 0 ≤ y) (hy2 : y ≤ (DUNGEON_HGT : Int) - 1)
    (hx1 : 0 ≤ x) (hx2 : x ≤ (DUNGEON_WID : Int) - 1)
    (hold : st.cave_feat y x ≠ FEAT_LESS) :
    countLess (stSetFeat st y x FEAT_LESS) = countLess st + 1 := by
  unfold countLess
  have key : ((Finset.Icc (0 : Int) ((DUNGEON_HGT : Int) - 1)) ×ˢ
      (Finset.Icc (0 : Int) ((DUNGEON_WID : Int) - 1))).filter
        (fun p => (stSetFeat st y x FEAT_LESS).cave_feat p.1 p.2 = FEAT_LESS) =
      insert (y, x) (((Finset.Icc (0 : Int) ((DUNGEON_HGT : Int) - 1)) ×ˢ
      (Finset.Icc (0 : Int) ((DUNGEON_WID : Int) - 1))).filter
        (fun p => st.cave_feat p.1 p.2 = FEAT_LESS)) := by
    ext p
    obtain ⟨b, a⟩ := p
    simp only [Finset.mem_filter, Finset.mem_insert, Finset.mem_product,
      Finset.mem_Icc, stSetFeat_feat, Prod.mk.injEq]
    constructor
    · rintro ⟨⟨hb, ha⟩, hfeat⟩
      by_cases hba : b = y ∧ a = x
      · exact Or.inl hba
      · rw [if_neg hba] at hfeat
        exact Or.inr ⟨⟨hb, ha⟩, hfeat⟩
    · rintro (⟨hb, ha⟩ | ⟨⟨hb, ha⟩, hfeat⟩)
      · subst hb; subst ha
        exact ⟨⟨⟨hy1, hy2⟩, hx1, hx2⟩, by rw [if_pos ⟨rfl, rfl⟩]⟩
      · refine ⟨⟨hb, ha⟩, ?_⟩
        by_cases hba : b = y ∧ a = x
        · exfalso
          rcases hba with ⟨rfl, rfl⟩
          exact hold hfeat
        · rw [if_neg hba]
          exact hfeat
  rw [key, Finset.card_insert_of_not_mem]
  intro hmem
  rw [Finset.mem_filter] at hmem
  exact hold hmem.2

theorem countLess_set_other (st : CaveState) (y x : Int) (v : Nat)
    (hv : v ≠ FEAT_LESS) (hold : st.cave_feat y x ≠ FEAT_LESS) :
    countLess (stSetFeat st y x v) = countLess st := by
  unfold countLess
  congr 1
  apply Finset.filter_congr
  intro p _
  obtain ⟨b, a⟩ := p
  simp only [stSetFeat_feat]
  by_cases hba : b = y ∧ a = x
  · rw [if_pos hba]
    rcases hba with ⟨rfl, rfl⟩
    exact ⟨fun h => absurd h hv, fun h => absurd h hold⟩
  · rw [if_neg hba]

theorem countLess_boardBase : countLess boardBase = 0 := by
  unfold countLess
  rw [Finset.card_eq_zero, Finset.filter_eq_empty_iff]
  intro p _
  show ¬ boardBase.cave_feat p.1 p.2 = FEAT_LESS
  unfold boardBase
  dsimp only
  split
  · decide
  · decide

theorem stairTryLoop_some (env : GenEnv) (feat walls : Nat) (force_room : Bool)
    (st : CaveState) :
    ∀ (j : Nat) (r : RandState) (st2 : CaveState) (r2 : RandState),
      stairTryLoop env feat walls force_room st r j = (some st2, r2) →
      ∃ y x : Int, 0 ≤ y ∧ y ≤ (DUNGEON_HGT : Int) - 1 ∧ 0 ≤ x ∧
        x ≤ (DUNGEON_WID : Int) - 1 ∧ cave_naked_bold st y x = true ∧
        st2 = stSetFeat st y x (stairFeatureFor env feat) := by
  intro j
  induction j with
  | zero =>
    intro r st2 r2 h
    rw [stairTryLoop] at h
    exact Option.noConfusion (congrArg Prod.fst h)
  | succ j ih =>
    intro r st2 r2 h
    rw [stairTryLoop] at h
    split at h
    case isTrue h1 => exact ih _ st2 r2 h
    case isFalse h1 =>
      split at h
      case isTrue h2 => exact ih _ st2 r2 h
      case isFalse h2 =>
        split at h
        case isTrue h3 => exact ih _ st2 r2 h
        case isFalse h3 =>
          simp only [Prod.mk.injEq, Option.some.injEq] at h
          refine ⟨((rand_int r DUNGEON_HGT).1 : Int), ((rand_int (rand_int r DUNGEON_HGT).2
            DUNGEON_WID).1 : Int), ?_, ?_, ?_, ?_, ?_, ?_⟩
          · exact Int.ofNat_nonneg _
          · have := rand_int_lt r DUNGEON_HGT (by decide)
            omega
          · exact Int.ofNat_nonneg _
          · have := rand_int_lt (rand_int r DUNGEON_HGT).2 DUNGEON_WID (by decide)
            omega
          · exact not_not.mp h1
          · exact h.1.symm

theorem stairPlaceLoop_some (env : GenEnv) (feat : Nat) (force_room : Bool)
    (st : CaveState) :
    ∀ (fuel : Nat) (r : RandState) (walls : Nat) (st2 : CaveState)
      (r2 : RandState) (w2 : Nat),
      stairPlaceLoop env feat force_room st r walls fuel = some (st2, r2, w2) →
      ∃ y x : Int, 0 ≤ y ∧ y ≤ (DUNGEON_HGT : Int) - 1 ∧ 0 ≤ x ∧
        x ≤ (DUNGEON_WID : Int) - 1 ∧ cave_naked_bold st y x = true ∧
        st2 = stSetFeat st y x (stairFeatureFor env feat) := by
  intro fuel
  induction fuel with
  | zero =>
    intro r walls st2 r2 w2 h
    simp [stairPlaceLoop] at h
  | succ fuel ih =>
    intro r walls st2 r2 w2 h
    rw [stairPlaceLoop] at h
    rcases htry : stairTryLoop env feat walls force_room st r 3000 with ⟨o, rr⟩
    rw [htry] at h
    match o, h with
    | some st3, h =>
      dsimp only at h
      simp only [Option.some.injEq, Prod.mk.injEq] at h
      obtain ⟨hst, _, _⟩ := h
      obtain ⟨y, x, hy1, hy2, hx1, hx2, hnk, heq⟩ :=
        stairTryLoop_some env feat walls force_room st 3000 r st3 rr htry
      exact ⟨y, x, hy1, hy2, hx1, hx2, hnk, by rw [← hst, heq]⟩
    | none, h =>
      dsimp only at h
      exact ih rr (walls - 1) st2 r2 w2 h

theorem allocStairsLoop_count (env : GenEnv) (feat : Nat) (force_room : Bool)
    (fuel : Nat) (hd : env.depth ≠ 0) (hs : env.inside_special = Special.norm)
    (ht : env.depth < MAX_DEPTH - 1) :
    ∀ (num : Nat) (st : CaveState) (r : RandState) (walls : Nat)
      (st2 : CaveState) (r2 : RandState) (w2 : Nat),
      allocStairsLoop env feat force_room fuel num st r walls = some (st2, r2, w2) →
      countLess st2 = countLess st + (if feat = FEAT_LESS then num else 0) := by
  intro num
  induction num with
  | zero =>
    intro st r walls st2 r2 w2 h
    simp only [allocStairsLoop, Option.some.injEq, Prod.mk.injEq] at h
    rw [← h.1]
    split <;> omega
  | succ num ih =>
    intro st r walls st2 r2 w2 h
    rw [allocStairsLoop] at h
    rcases hp : stairPlaceLoop env feat force_room st r walls fuel with _ | ⟨stm, rm, wm⟩
    · rw [hp] at h
      dsimp only at h
      exact Option.noConfusion h
    · rw [hp] at h
      dsimp only at h
      have hrest := ih stm rm wm st2 r2 w2 h
      obtain ⟨y, x, hy1, hy2, hx1, hx2, hnk, heq⟩ :=
        stairPlaceLoop_some env feat force_room st fuel r walls stm rm wm hp
      rw [stairFeatureFor_std env feat hd hs ht] at heq
      have hfloor := cave_naked_floor st y x hnk
      have hold : st.cave_feat y x ≠ FEAT_LESS := by rw [hfloor]; decide
      by_cases hfeat : feat = FEAT_LESS
      · subst hfeat
        have hset := countLess_set_less st y x hy1 hy2 hx1 hx2 hold
        have e1 : (if FEAT_LESS = FEAT_LESS then num else 0) = num := if_pos rfl
        have e2 : (if FEAT_LESS = FEAT_LESS then num + 1 else 0) = num + 1 := if_pos rfl
        rw [heq, e1] at hrest
        rw [e2]
        omega
      · have hset := countLess_set_other st y x feat hfeat hold
        have e1 : (if feat = FEAT_LESS then num else 0) = 0 := if_neg hfeat
        have e2 : (if feat = FEAT_LESS then num + 1 else 0) = 0 := if_neg hfeat
        rw [heq, e1] at hrest
        rw [e2]
        omega

theorem alloc_stairs_count (env : GenEnv) (feat num walls : Nat)
    (force_room : Bool) (fuel : Nat) (st : CaveState) (r : RandState)
    (st2 : CaveState) (r2 : RandState) (w2 : Nat)
    (hd : env.depth ≠ 0) (hs : env.inside_special = Special.norm)
    (ht : env.depth < MAX_DEPTH - 1)
    (h : alloc_stairs env feat num walls force_room fuel st r = some (st2, r2, w2)) :
    countLess st2 = countLess st + (if feat = FEAT_LESS then num else 0) := by
  unfold alloc_stairs at h
  have hnd : ¬ env.inside_special = Special.dream := by rw [hs]; decide
  rw [if_neg (fun hc => hnd hc.1)] at h
  simp only [hnd, false_and, and_false, if_false, ite_false] at h
  exact allocStairsLoop_count env feat force_room fuel hd hs ht num st r walls
    st2 r2 w2 h

theorem caveGenStairsPass_count (env : GenEnv) (force_room : Bool) (fuel : Nat)
    (g : CaveState) (r : RandState) (st2 : CaveState) (r2 : RandState)
    (hd : env.depth ≠ 0) (hs : env.inside_special = Special.norm)
    (ht : env.depth < MAX_DEPTH - 1)
    (h : caveGenStairsPass env force_room fuel g r = some (st2, r2)) :
    ∃ n : Nat, 40 ≤ n ∧ n ≤ 60 ∧ countLess st2 = countLess g + n := by
  rw [caveGenStairsPass] at h
  rcases hM : alloc_stairs env FEAT_MORE (rand_range r 100 120).1 3 force_room fuel
      g (rand_range r 100 120).2 with _ | ⟨stM, rM, wM⟩
  · rw [hM] at h
    dsimp only at h
    exact Option.noConfusion h
  · rw [hM] at h
    dsimp only at h
    rcases hL : alloc_stairs env FEAT_LESS (rand_range rM 40 60).1 3 force_room fuel
        stM (rand_range rM 40 60).2 with _ | ⟨stL, rL, wL⟩
    · rw [hL] at h
      dsimp only at h
      exact Option.noConfusion h
    · rw [hL] at h
      dsimp only at h
      simp only [Option.some.injEq, Prod.mk.injEq] at h
      have hMore := alloc_stairs_count env FEAT_MORE (rand_range r 100 120).1 3
        force_room fuel g (rand_range r 100 120).2 stM rM wM hd hs ht hM
      have hLess := alloc_stairs_count env FEAT_LESS (rand_range rM 40 60).1 3
        force_room fuel stM (rand_range rM 40 60).2 stL rL wL hd hs ht hL
      rw [if_neg (by decide)] at hMore
      rw [if_pos rfl] at hLess
      have hb := rand_range_bounds rM 40 60 (by omega)
      exact ⟨(rand_range rM 40 60).1, hb.1, hb.2, by
        rw [← h.1, hLess, hMore]; omega⟩

/-- Claim C2 (code bug evaluation): running the stair section of
`cave_gen` (down stairs then up stairs) on a standard depth-5 level
over the checkerboard base grid, with a concrete ambient stream,
terminates and leaves between 40 and 60 up-stair (FEAT_LESS) cells —
the source draws `rand_range(40, 60)` up stairs although its own
comment says to place 1 or 2 — so the count is far outside the
claimed interval [1, 3]. -/
theorem c2_up_stair_count :
    ∃ st r, caveGenStairsPass stdEnv false 3 boardBase c2Rand = some (st, r) ∧
      40 ≤ countLess st ∧ countLess st ≤ 60 ∧ ¬ countLess st ≤ 3 := by
  obtain ⟨st, r, h⟩ :
      ∃ st r, caveGenStairsPass stdEnv false 3 boardBase c2Rand = some (st, r) :=
    ⟨_, _, rfl⟩
  obtain ⟨n, h40, h60, hc⟩ := caveGenStairsPass_count stdEnv false 3 boardBase
    c2Rand st r (by decide) (by decide) (by decide) h
  have h0 : countLess boardBase = 0 := countLess_boardBase
  exact ⟨st, r, h, by omega, by omega, by omega⟩

theorem rand_int_rel (r r2 : RandState) (n : Nat) (h : randRel r r2) :
    (rand_int r n).1 = (rand_int r2 n).1 ∧
      randRel (rand_int r n).2 (rand_int r2 n).2 := by
  obtain ⟨hq, hq2, hv⟩ := h
  constructor
  · simp [rand_int, hq, hq2, hv]
  · simp [rand_int, randRel, hq, hq2, hv]

theorem stairTryLoop_rel (env : GenEnv) (feat walls : Nat) (force_room : Bool)
    (st : CaveState) :
    ∀ (j : Nat) (r r2 : RandState), randRel r r2 →
      (stairTryLoop env feat walls force_room st r j).1 =
        (stairTryLoop env feat walls force_room st r2 j).1 ∧
      randRel (stairTryLoop env feat walls force_room st r j).2
        (stairTryLoop env feat walls force_room st r2 j).2 := by
  intro j
  induction j with
  | zero =>
    intro r r2 h
    exact ⟨rfl, h⟩
  | succ j ih =>
    intro r r2 h
    obtain ⟨hy1, hyR⟩ := rand_int_rel r r2 DUNGEON_HGT h
    obtain ⟨hx1, hxR⟩ := rand_int_rel (rand_int r DUNGEON_HGT).2
      (rand_int r2 DUNGEON_HGT).2 DUNGEON_WID hyR
    simp only [stairTryLoop]
    rw [hy1, hx1]
    split_ifs <;> first
      | exact ih _ _ hxR
      | exact ⟨rfl, hxR⟩

theorem stairPlaceLoop_rel (env : GenEnv) (feat : Nat) (force_room : Bool)
    (st : CaveState) :
    ∀ (fuel : Nat) (r r2 : RandState) (walls : Nat), randRel r r2 →
      stairResRel (stairPlaceLoop env feat force_room st r walls fuel)
        (stairPlaceLoop env feat force_room st r2 walls fuel) := by
  intro fuel
  induction fuel with
  | zero =>
    intro r r2 walls h
    simp only [stairPlaceLoop]
    trivial
  | succ fuel ih =>
    intro r r2 walls h
    obtain ⟨ho, hR⟩ := stairTryLoop_rel env feat walls force_room st 3000 r r2 h
    rw [stairPlaceLoop, stairPlaceLoop]
    rcases h1 : stairTryLoop env feat walls force_room st r 3000 with ⟨o1, ra⟩
    rcases h2 : stairTryLoop env feat walls force_room st r2 3000 with ⟨o2, rb⟩
    rw [h1, h2] at ho hR
    dsimp only at ho hR
    subst ho
    match o1 with
    | some st3 => exact ⟨rfl, rfl, hR⟩
    | none => exact ih ra rb (walls - 1) hR

theorem allocStairsLoop_rel (env : GenEnv) (feat : Nat) (force_room : Bool)
    (fuel : Nat) :
    ∀ (num : Nat) (st : CaveState) (r r2 : RandState) (walls : Nat),
      randRel r r2 →
      stairResRel (allocStairsLoop env feat force_room fuel num st r walls)
        (allocStairsLoop env feat force_room fuel num st r2 walls) := by
  intro num
  induction num with
  | zero =>
    intro st r r2 walls h
    exact ⟨rfl, rfl, h⟩
  | succ num ih =>
    intro st r r2 walls h
    have hp := stairPlaceLoop_rel env feat force_room st fuel r r2 walls h
    rw [allocStairsLoop, allocStairsLoop]
    rcases h1 : stairPlaceLoop env feat force_room st r walls fuel with _ | ⟨sa, ra, wa⟩
      <;> rcases h2 : stairPlaceLoop env feat force_room st r2 walls fuel with _ | ⟨sb, rb, wb⟩
      <;> rw [h1, h2] at hp
    · trivial
    · exact absurd hp (by simp [stairResRel])
    · exact absurd hp (by simp [stairResRel])
    · obtain ⟨hs, hw, hR⟩ := hp
      subst hs; subst hw
      exact ih sa ra rb wa hR

theorem alloc_stairs_rel (env : GenEnv) (feat num walls : Nat)
    (force_room : Bool) (fuel : Nat) (st : CaveState) (r r2 : RandState)
    (h : randRel r r2) :
    stairResRel (alloc_stairs env feat num walls force_room fuel st r)
      (alloc_stairs env feat num walls force_room fuel st r2) := by
  unfold alloc_stairs
  split_ifs with h1 h2 h3 <;>
    first
      | exact ⟨rfl, rfl, h⟩
      | exact allocStairsLoop_rel env _ force_room fuel _ st r r2 walls h

theorem caveGenStairsPass_rel (env : GenEnv) (force_room : Bool) (fuel : Nat)
    (g : CaveState) (r r2 : RandState) (h : randRel r r2) :
    Option.map Prod.fst (caveGenStairsPass env force_room fuel g r) =
      Option.map Prod.fst (caveGenStairsPass env force_room fuel g r2) := by
  obtain ⟨hn1, hR1⟩ := rand_int_rel r r2 (1 + 120 - 100) h
  have hnum1 : (rand_range r 100 120).1 = (rand_range r2 100 120).1 := by
    simp only [rand_range, hn1]
  have hR1b : randRel (rand_range r 100 120).2 (rand_range r2 100 120).2 := by
    simp only [rand_range]; exact hR1
  rw [caveGenStairsPass, caveGenStairsPass, hnum1]
  have hM := alloc_stairs_rel env FEAT_MORE (rand_range r2 100 120).1 3 force_room
    fuel g (rand_range r 100 120).2 (rand_range r2 100 120).2 hR1b
  rcases h1 : alloc_stairs env FEAT_MORE (rand_range r2 100 120).1 3 force_room fuel
      g (rand_range r 100 120).2 with _ | ⟨sa, ra, wa⟩
  · rcases h2 : alloc_stairs env FEAT_MORE (rand_range r2 100 120).1 3 force_room fuel
        g (rand_range r2 100 120).2 with _ | ⟨sb, rb, wb⟩
    · simp only [h1, h2]
    · rw [h1, h2] at hM
      exact absurd hM (by simp [stairResRel])
  · rcases h2 : alloc_stairs env FEAT_MORE (rand_range r2 100 120).1 3 force_room fuel
        g (rand_range r2 100 120).2 with _ | ⟨sb, rb, wb⟩
    · rw [h1, h2] at hM
      exact absurd hM (by simp [stairResRel])
    · rw [h1, h2] at hM
      obtain ⟨hs, hw, hR2⟩ := hM
      subst hs
      simp only [h1, h2]
      obtain ⟨hn2, hR3⟩ := rand_int_rel ra rb (1 + 60 - 40) hR2
      have hnum2 : (rand_range ra 40 60).1 = (rand_range rb 40 60).1 := by
        simp only [rand_range, hn2]
      have hR3b : randRel (rand_range ra 40 60).2 (rand_range rb 40 60).2 := by
        simp only [rand_range]; exact hR3
      rw [hnum2]
      have hL := alloc_stairs_rel env FEAT_LESS (rand_range rb 40 60).1 3 force_room
        fuel sa (rand_range ra 40 60).2 (rand_range rb 40 60).2 hR3b
      rcases h3 : alloc_stairs env FEAT_LESS (rand_range rb 40 60).1 3 force_room fuel
          sa (rand_range ra 40 60).2 with _ | ⟨sc, rc, wc⟩
      · rcases h4 : alloc_stairs env FEAT_LESS (rand_range rb 40 60).1 3 force_room fuel
            sa (rand_range rb 40 60).2 with _ | ⟨sd, rd, wd⟩
        · simp only [h3, h4]
        · rw [h3, h4] at hL
          exact absurd hL (by simp [stairResRel])
      · rcases h4 : alloc_stairs env FEAT_LESS (rand_range rb 40 60).1 3 force_room fuel
            sa (rand_range rb 40 60).2 with _ | ⟨sd, rd, wd⟩
        · rw [h3, h4] at hL
          exact absurd hL (by simp [stairResRel])
        · rw [h3, h4] at hL
          obtain ⟨hs2, _, _⟩ := hL
          subst hs2
          simp only [h3, h4]
          rfl

/-- Claim C4 (amended): for a fixed seed_dungeon and depth, the part
of `cave_gen` run while Rand_quick is on (modelled by the seeded
stair phase) produces a grid that depends only on the seed and depth:
it is independent of the ambient stable stream and of its cursor.
The full grids of two invocations are NOT byte-identical in general,
because `populate_cover_features` runs after `Rand_quick = FALSE` and
rewrites the feature layer from the unseeded stream (see the
counterexample). -/
theorem c4_seeded_phase_deterministic (seed depth : Nat) (g : CaveState)
    (a1 a2 : Nat → Nat) (i1 i2 : Nat) (fuel : Nat) :
    Option.map Prod.fst (seededStairPhase seed depth a1 i1 fuel g) =
      Option.map Prod.fst (seededStairPhase seed depth a2 i2 fuel g) := by
  unfold seededStairPhase
  exact caveGenStairsPass_rel { depth := depth, inside_special := Special.norm }
    false fuel g
    { quick := true, value := w32 (seed + depth), seq := a1, idx := i1 }
    { quick := true, value := w32 (seed + depth), seq := a2, idx := i2 }
    ⟨rfl, rfl, rfl⟩

set_option maxHeartbeats 8000000 in
/-- Counterexample for C4 as stated: two invocations of the modelled
`generate_cave` pipeline with the same seed (1) and depth (5) but
different ambient stable-stream states produce different feature
layers: with the all-zero ambient stream the cover pass places a
crate at (29, 96), with the all-99 stream the 50% roll fails and the
cell stays floor.  The grids are not byte-identical. -/
theorem c4_not_byte_identical :
    Option.map (fun g => g.base.cave_feat 29 96)
      (caveGenSeedModel 1 5 [(33, 100)] boardGen seqZero 3) = some FEAT_CRATE ∧
    Option.map (fun g => g.base.cave_feat 29 96)
      (caveGenSeedModel 1 5 [(33, 100)] boardGen seqNinetyNine 3) = some FEAT_FLOOR ∧
    FEAT_CRATE ≠ FEAT_FLOOR :=
  ⟨rfl, rfl, by decide⟩

end Kamband
